import Mathlib

/-!
Verification development for the snapflow repository's identity-matching and
entitlement-gated delivery core. The definitions below are a shallow
embedding of the TypeScript source:

* `src/apps/api/src/routes/stripe-webhook.ts` — webhook reconciliation
  (`markPurchasePaid`, `markPurchaseFailed`, `stripeWebhookHandler` dispatch);
* `src/apps/api/src/payments/purchase-access-token.ts` — purchase access
  token signing and verification;
* `src/apps/api/src/routes/public-purchases.router.ts` — the download
  endpoints (`/download/photo/:photoId` and `/download/all`);
* the Rekognition face-search module (`indexPhotoFace`,
  `clearExistingPhotoFaces`, `findSelfieMatches`);
* `findMeQuerySchema` from `public-events.router.ts`.

Databases are modelled as lists of rows; Prisma `updateMany` becomes a map
over the list, `findFirst`/`findUnique` become `List.find?`, `findMany`
becomes `List.filter`. Provider calls (Rekognition, Stripe, S3) are external
collaborators: their responses are explicit inputs of the embedded
functions, and a thrown provider exception is an `Except.error` carrying the
exception's `name`. JavaScript numbers used for similarities are modelled as
rationals.
-/

namespace Snapflow

/-- Publication state of a photo (`PhotoStatus` enum in the Prisma schema). -/
inductive PhotoStatus where
  | DRAFT
  | PUBLISHED
deriving DecidableEq, Repr

/-- Payment lifecycle state of a purchase (`PurchaseStatus` enum). -/
inductive PurchaseStatus where
  | PENDING
  | PAID
  | FAILED
  | REFUNDED
deriving DecidableEq, Repr

/-- A `Photo` row, with the columns the embedded routes read. -/
structure Photo where
  id : String
  eventId : String
  storageKey : String
  status : PhotoStatus
  isUploaded : Bool
deriving DecidableEq, Repr

/-- A `Purchase` row. -/
structure Purchase where
  id : String
  eventId : String
  buyerEmail : String
  stripeSessionId : String
  stripePaymentId : Option String
  status : PurchaseStatus
  amountTotal : Int
  currency : String
  payoutStatus : String
deriving DecidableEq, Repr

/-- A `PurchaseItem` row. `itemType` holds one of the opaque constants of
`payments/constants.ts`; `photoId` is populated only for single-photo items. -/
structure PurchaseItem where
  id : String
  purchaseId : String
  itemType : String
  photoId : Option String
  amount : Int
deriving DecidableEq, Repr

/-- A `FaceEmbedding` row: the local mapping from a provider face handle to
the owning photo. -/
structure FaceEmbedding where
  photoId : String
  provider : String
  externalId : String
  confidence : Option Rat
deriving DecidableEq, Repr

/-- Constant `PURCHASE_ITEM_ALL_PHOTOS` from `payments/constants.ts` (an
opaque string constant; only equality with it matters). -/
def PURCHASE_ITEM_ALL_PHOTOS : String := "ALL_PHOTOS"

/-- Constant `PURCHASE_ITEM_SINGLE_PHOTO` from `payments/constants.ts`. -/
def PURCHASE_ITEM_SINGLE_PHOTO : String := "SINGLE_PHOTO"

/-- Constant `FACE_PROVIDER` from the Rekognition face-search module. -/
def FACE_PROVIDER : String := "aws-rekognition"

/-! ## Webhook reconciliation (`stripe-webhook.ts`) -/

/-- The fields of a Stripe `Checkout.Session` that the webhook handler
reads. `paymentIntent` is `some` exactly when `session.payment_intent` is a
string; the two email fields model `customer_details?.email` and
`customer_email` (`none` for null/undefined). -/
structure CheckoutSession where
  id : String
  paymentIntent : Option String
  customerDetailsEmail : Option String
  customerEmail : Option String
deriving DecidableEq, Repr

/-- `session.customer_details?.email?.toLowerCase() ?? session.customer_email?.toLowerCase()`. -/
def sessionBuyerEmail (s : CheckoutSession) : Option String :=
  match s.customerDetailsEmail with
  | some e => some e.toLower
  | none => s.customerEmail.map (fun e => e.toLower)

/-- `markPurchasePaid` (stripe-webhook.ts lines 6-20): `updateMany` on every
purchase whose `stripeSessionId` matches the session id — with **no**
condition on the current status — setting status `PAID`, stamping the
payment intent id, and overwriting `buyerEmail` only when a truthy (non-null,
non-empty) email is available. -/
def markPurchasePaid (s : CheckoutSession) (db : List Purchase) : List Purchase :=
  db.map (fun p =>
    if p.stripeSessionId = s.id then
      { p with
        status := PurchaseStatus.PAID
        stripePaymentId := s.paymentIntent
        buyerEmail :=
          match sessionBuyerEmail s with
          | some e => if e = "" then p.buyerEmail else e
          | none => p.buyerEmail }
    else p)

/-- `markPurchaseFailed` (stripe-webhook.ts lines 22-32): `updateMany`
conditioned on `stripeSessionId` matching **and** status `PENDING`, setting
status `FAILED`. -/
def markPurchaseFailed (s : CheckoutSession) (db : List Purchase) : List Purchase :=
  db.map (fun p =>
    if p.stripeSessionId = s.id ∧ p.status = PurchaseStatus.PENDING then
      { p with status := PurchaseStatus.FAILED }
    else p)

/-- The Stripe event types the webhook handler switches on. -/
inductive StripeEventType where
  | checkoutSessionCompleted
  | asyncPaymentSucceeded
  | checkoutSessionExpired
  | asyncPaymentFailed
  | other
deriving DecidableEq, Repr

/-- The `switch (event.type)` dispatch of `stripeWebhookHandler` (after a
signature-verified event has been constructed): completed / async-succeeded
reconcile as paid, expired / async-failed reconcile as failed, anything else
is ignored. -/
def applyStripeWebhookEvent (t : StripeEventType) (s : CheckoutSession)
    (db : List Purchase) : List Purchase :=
  match t with
  | StripeEventType.checkoutSessionCompleted => markPurchasePaid s db
  | StripeEventType.asyncPaymentSucceeded => markPurchasePaid s db
  | StripeEventType.checkoutSessionExpired => markPurchaseFailed s db
  | StripeEventType.asyncPaymentFailed => markPurchaseFailed s db
  | StripeEventType.other => db

/-- Payment status of the purchase stored at position `i` of the table. -/
def statusAt (db : List Purchase) (i : Nat) : Option PurchaseStatus :=
  (db[i]?).map Purchase.status

lemma statusAt_map (f : Purchase → Purchase) (db : List Purchase) (i : Nat) :
    statusAt (db.map f) i = (db[i]?).map (fun p => (f p).status) := by
  simp only [statusAt, List.getElem?_map, Option.map_map]
  rfl

lemma markPurchasePaid_status_paid (s : CheckoutSession) (db : List Purchase)
    (i : Nat) (h : statusAt db i = some PurchaseStatus.PAID) :
    statusAt (markPurchasePaid s db) i = some PurchaseStatus.PAID := by
  rcases Option.map_eq_some'.mp h with ⟨p, hp, hpaid⟩
  simp only [markPurchasePaid]
  rw [statusAt_map, hp]
  by_cases hc : p.stripeSessionId = s.id <;> simp [hc, hpaid]


lemma markPurchaseFailed_noop_of_not_pending (s : CheckoutSession)
    (db : List Purchase) (i : Nat) (p : Purchase) (hp : db[i]? = some p)
    (hnp : p.status ≠ PurchaseStatus.PENDING) :
    (markPurchaseFailed s db)[i]? = some p := by
  simp only [markPurchaseFailed]
  rw [List.getElem?_map, hp, Option.map_some']
  rw [if_neg]
  rintro ⟨-, h2⟩
  exact hnp h2

lemma markPurchasePaid_idem (s : CheckoutSession) (db : List Purchase) :
    markPurchasePaid s (markPurchasePaid s db) = markPurchasePaid s db := by
  simp only [markPurchasePaid]
  rw [List.map_map]
  refine List.map_congr_left (fun p _ => ?_)
  by_cases hc : p.stripeSessionId = s.id
  · rcases he : sessionBuyerEmail s with _ | e
    · simp [Function.comp, hc, he]
    · by_cases hnil : e = "" <;> simp [Function.comp, hc, he, hnil]
  · simp [Function.comp, hc]

lemma markPurchaseFailed_idem (s : CheckoutSession) (db : List Purchase) :
    markPurchaseFailed s (markPurchaseFailed s db) = markPurchaseFailed s db := by
  simp only [markPurchaseFailed]
  rw [List.map_map]
  refine List.map_congr_left (fun p _ => ?_)
  by_cases hc : p.stripeSessionId = s.id ∧ p.status = PurchaseStatus.PENDING
  · simp [Function.comp, hc]
  · simp [Function.comp, if_neg hc]

/-- C1 counterexample: a purchase already in `FAILED` state is moved back to
`PAID` by a later `checkout.session.completed` webhook for its session,
because `markPurchasePaid`'s `updateMany` filters only on the session id,
not on the current status. So a terminal (`paid`-or-`failed`) state is not
stable under reconciliation, contrary to the claim. -/
theorem C1_terminal_state_counterexample :
    statusAt
      [({ id := "pur_1", eventId := "evt_1", buyerEmail := "b@example.com",
          stripeSessionId := "cs_1", stripePaymentId := none,
          status := PurchaseStatus.FAILED, amountTotal := 500,
          currency := "usd", payoutStatus := "pending" } : Purchase)] 0
      = some PurchaseStatus.FAILED ∧
    statusAt
      (applyStripeWebhookEvent StripeEventType.checkoutSessionCompleted
        ({ id := "cs_1", paymentIntent := some "pi_1",
           customerDetailsEmail := none, customerEmail := none } : CheckoutSession)
        [({ id := "pur_1", eventId := "evt_1", buyerEmail := "b@example.com",
            stripeSessionId := "cs_1", stripePaymentId := none,
            status := PurchaseStatus.FAILED, amountTotal := 500,
            currency := "usd", payoutStatus := "pending" } : Purchase)]) 0
      = some PurchaseStatus.PAID ∧
    PurchaseStatus.FAILED ≠ PurchaseStatus.PAID := by
  refine ⟨rfl, ?_, by decide⟩
  rfl

/-- C1 (amended): a `PAID` state is stable — no webhook reconciliation
(succeeded or failed, duplicate or late) ever changes the state of a
purchase that is already `paid` — and every reconciliation is idempotent:
replaying the same webhook event is a complete no-op on the purchase table.
(A `FAILED` purchase, by contrast, can still be promoted to `PAID` by a
later succeeded delivery, as the counterexample shows.) -/
theorem C1_paid_stable_and_reconcile_idempotent :
    ∀ (t : StripeEventType) (s : CheckoutSession) (db : List Purchase),
      (∀ i : Nat, statusAt db i = some PurchaseStatus.PAID →
        statusAt (applyStripeWebhookEvent t s db) i = some PurchaseStatus.PAID) ∧
      applyStripeWebhookEvent t s (applyStripeWebhookEvent t s db)
        = applyStripeWebhookEvent t s db := by
  intro t s db
  constructor
  · intro i h
    rcases Option.map_eq_some'.mp h with ⟨p, hp, hpaid⟩
    cases t
    · exact markPurchasePaid_status_paid s db i h
    · exact markPurchasePaid_status_paid s db i h
    · rw [applyStripeWebhookEvent, statusAt,
        markPurchaseFailed_noop_of_not_pending s db i p hp (by rw [hpaid]; decide),
        Option.map_some', hpaid]
    · rw [applyStripeWebhookEvent, statusAt,
        markPurchaseFailed_noop_of_not_pending s db i p hp (by rw [hpaid]; decide),
        Option.map_some', hpaid]
    · exact h
  · cases t
    · exact markPurchasePaid_idem s db
    · exact markPurchasePaid_idem s db
    · exact markPurchaseFailed_idem s db
    · exact markPurchaseFailed_idem s db
    · rfl

/-- Witness for C1's amended theorem at a concrete paid purchase and a
duplicate succeeded delivery. -/
theorem C1_paid_stable_witness :
    statusAt
      (applyStripeWebhookEvent StripeEventType.asyncPaymentSucceeded
        ({ id := "cs_9", paymentIntent := none,
           customerDetailsEmail := none, customerEmail := none } : CheckoutSession)
        [({ id := "pur_9", eventId := "evt_9", buyerEmail := "x@example.com",
            stripeSessionId := "cs_9", stripePaymentId := some "pi_9",
            status := PurchaseStatus.PAID, amountTotal := 100,
            currency := "usd", payoutStatus := "pending" } : Purchase)]) 0
      = some PurchaseStatus.PAID :=
  (C1_paid_stable_and_reconcile_idempotent StripeEventType.asyncPaymentSucceeded
    ({ id := "cs_9", paymentIntent := none,
       customerDetailsEmail := none, customerEmail := none } : CheckoutSession)
    [({ id := "pur_9", eventId := "evt_9", buyerEmail := "x@example.com",
        stripeSessionId := "cs_9", stripePaymentId := some "pi_9",
        status := PurchaseStatus.PAID, amountTotal := 100,
        currency := "usd", payoutStatus := "pending" } : Purchase)]).1 0 rfl

/-- C9: applying a `failed` reconciliation to a purchase that is already
`paid` is a complete no-op — the row is left byte-for-byte unchanged, since
`markPurchaseFailed` only transitions rows whose current status is
`PENDING`. -/
theorem C9_failed_reconcile_noop_on_paid (s : CheckoutSession)
    (db : List Purchase) (i : Nat) (p : Purchase)
    (hp : db[i]? = some p) (hpaid : p.status = PurchaseStatus.PAID) :
    (markPurchaseFailed s db)[i]? = some p ∧
    statusAt (markPurchaseFailed s db) i = some PurchaseStatus.PAID := by
  have h := markPurchaseFailed_noop_of_not_pending s db i p hp (by rw [hpaid]; decide)
  exact ⟨h, by rw [statusAt, h, Option.map_some', hpaid]⟩

/-- Witness for C9 at a concrete paid purchase. -/
theorem C9_failed_reconcile_noop_witness :
    (markPurchaseFailed
        ({ id := "cs_2", paymentIntent := none,
           customerDetailsEmail := none, customerEmail := none } : CheckoutSession)
        [({ id := "pur_2", eventId := "evt_2", buyerEmail := "y@example.com",
            stripeSessionId := "cs_2", stripePaymentId := some "pi_2",
            status := PurchaseStatus.PAID, amountTotal := 300,
            currency := "usd", payoutStatus := "pending" } : Purchase)])[0]?
      = some ({ id := "pur_2", eventId := "evt_2", buyerEmail := "y@example.com",
                stripeSessionId := "cs_2", stripePaymentId := some "pi_2",
                status := PurchaseStatus.PAID, amountTotal := 300,
                currency := "usd", payoutStatus := "pending" } : Purchase) :=
  (C9_failed_reconcile_noop_on_paid
    ({ id := "cs_2", paymentIntent := none,
       customerDetailsEmail := none, customerEmail := none } : CheckoutSession)
    [({ id := "pur_2", eventId := "evt_2", buyerEmail := "y@example.com",
        stripeSessionId := "cs_2", stripePaymentId := some "pi_2",
        status := PurchaseStatus.PAID, amountTotal := 300,
        currency := "usd", payoutStatus := "pending" } : Purchase)] 0 _ rfl rfl).1

/-! ## Purchase access tokens (`payments/purchase-access-token.ts`)

A JWT is modelled as a record carrying its payload (`sub`, `purchaseId`),
its expiry instant, and the secret it was signed with; `jwt.verify` succeeds
exactly when the verifying secret matches the signing secret and the token
has not expired at the verification instant. -/

/-- `PURCHASE_ACCESS_TOKEN_TTL` is the string "12h"; in seconds: -/
def PURCHASE_ACCESS_TOKEN_TTL_SECONDS : Nat := 12 * 3600

/-- A signed purchase access token. -/
structure PurchaseAccessToken where
  sub : String
  purchaseId : String
  exp : Nat
  signedWith : String
deriving DecidableEq, Repr

/-- `signPurchaseAccessToken`: payload has `sub` and `purchaseId` both equal
to the purchase id, expiring 12 hours after issuance. -/
def signPurchaseAccessToken (secret : String) (now : Nat)
    (purchaseId : String) : PurchaseAccessToken :=
  { sub := purchaseId
    purchaseId := purchaseId
    exp := now + PURCHASE_ACCESS_TOKEN_TTL_SECONDS
    signedWith := secret }

/-- `jwt.verify(token, secret)`: yields the decoded payload when the
signature checks out against `secret` and the token is unexpired at `now`;
`none` models the thrown `JsonWebTokenError` / `TokenExpiredError`. -/
def jwtVerifyToken (secret : String) (now : Nat)
    (t : PurchaseAccessToken) : Option PurchaseAccessToken :=
  if t.signedWith = secret ∧ now < t.exp then some t else none

/-- Outcome of `verifyPurchaseAccessToken` (which returns normally or
throws). -/
inductive VerifyOutcome where
  | ok
  | invalid
deriving DecidableEq, Repr

/-- `verifyPurchaseAccessToken({purchaseId, token})`: `jwt.verify` the token,
then require the decoded `purchaseId` claim to equal the purchase id from
the request path; any failure throws (here: `invalid`). -/
def verifyPurchaseAccessToken (secret : String) (now : Nat)
    (purchaseId : String) (t : PurchaseAccessToken) : VerifyOutcome :=
  match jwtVerifyToken secret now t with
  | none => VerifyOutcome.invalid
  | some decoded =>
    if decoded.purchaseId = purchaseId then VerifyOutcome.ok
    else VerifyOutcome.invalid

/-! ## Download routes (`public-purchases.router.ts`) -/

/-- The tables the public purchase routes read. -/
structure Db where
  purchases : List Purchase
  purchaseItems : List PurchaseItem
  photos : List Photo
deriving Repr

/-- The `items` relation of a purchase. -/
def purchaseItemsOf (db : Db) (purchaseId : String) : List PurchaseItem :=
  db.purchaseItems.filter (fun it => it.purchaseId = purchaseId)

/-- `getPaidPurchaseWithItems`: `findFirst` on id **and** status `PAID`,
including the purchase's items. -/
def getPaidPurchaseWithItems (db : Db) (purchaseId : String) :
    Option (Purchase × List PurchaseItem) :=
  match db.purchases.find?
      (fun p => p.id = purchaseId ∧ p.status = PurchaseStatus.PAID) with
  | some p => some (p, purchaseItemsOf db p.id)
  | none => none

/-- A signed URL minted by the external storage collaborator
(`createSignedDownloadUrl`): opaque, determined by object key and TTL. -/
structure SignedUrl where
  key : String
  expiresInSeconds : Nat
deriving DecidableEq, Repr

/-- `createSignedDownloadUrl({key, expiresInSeconds})`. -/
def createSignedDownloadUrl (key : String) (expiresInSeconds : Nat) : SignedUrl :=
  { key := key, expiresInSeconds := expiresInSeconds }

/-- Outcome of an Express route: an error response with its HTTP status, or
the JSON success payload. -/
inductive RouteResult (α : Type) where
  | err (httpStatus : Nat) (msg : String)
  | ok (value : α)
deriving DecidableEq, Repr

/-- `GET /public/purchases/:purchaseId/download/photo/:photoId`: require a
token, verify it against the path purchase id (401 on failure), require a
`PAID` purchase (404), require entitlement coverage — an all-photos item or
an item naming exactly this photo (403) —, then look the photo up by id,
the purchase's event, and `isUploaded` (404; note: **no** publication-status
condition), and answer its signed download URL (600 s). -/
def downloadPhotoRoute (secret : String) (now : Nat) (db : Db)
    (purchaseId photoId : String) (token : Option PurchaseAccessToken) :
    RouteResult (String × SignedUrl) :=
  match token with
  | none => RouteResult.err 401 "Purchase access token is required."
  | some t =>
    match verifyPurchaseAccessToken secret now purchaseId t with
    | VerifyOutcome.invalid => RouteResult.err 401 "Invalid purchase access token."
    | VerifyOutcome.ok =>
      match getPaidPurchaseWithItems db purchaseId with
      | none => RouteResult.err 404 "Paid purchase not found."
      | some (purchase, items) =>
        let hasAllPhotos := items.any (fun it => it.itemType = PURCHASE_ITEM_ALL_PHOTOS)
        let hasPhotoAccess := items.any (fun it => it.photoId = some photoId)
        if !hasAllPhotos && !hasPhotoAccess then
          RouteResult.err 403 "Photo is not included in this purchase."
        else
          match db.photos.find?
              (fun ph => ph.id = photoId ∧ ph.eventId = purchase.eventId ∧ ph.isUploaded = true) with
          | none => RouteResult.err 404 "Photo not found."
          | some photo =>
            RouteResult.ok (photo.id, createSignedDownloadUrl photo.storageKey 600)

/-- The eligibility filter of the bundle route's `findMany`: same event,
uploaded, and currently `PUBLISHED`. -/
def bundleEligible (eventId : String) (ph : Photo) : Bool :=
  ph.eventId = eventId ∧ ph.isUploaded = true ∧ ph.status = PhotoStatus.PUBLISHED

/-- `GET /public/purchases/:purchaseId/download/all`: same token and paid-
purchase checks; requires an all-photos item (403); then returns one signed
URL (600 s) per photo of the purchase's event that is uploaded and currently
`PUBLISHED`, evaluated against the present state of the photo table. (The
route's `orderBy` clause only permutes these rows and is not modelled —
timestamps are outside this embedding; the properties proved about the
result are order-insensitive.) -/
def downloadAllRoute (secret : String) (now : Nat) (db : Db)
    (purchaseId : String) (token : Option PurchaseAccessToken) :
    RouteResult (List (String × SignedUrl)) :=
  match token with
  | none => RouteResult.err 401 "Purchase access token is required."
  | some t =>
    match verifyPurchaseAccessToken secret now purchaseId t with
    | VerifyOutcome.invalid => RouteResult.err 401 "Invalid purchase access token."
    | VerifyOutcome.ok =>
      match getPaidPurchaseWithItems db purchaseId with
      | none => RouteResult.err 404 "Paid purchase not found."
      | some (purchase, items) =>
        let hasAllPhotos := items.any (fun it => it.itemType = PURCHASE_ITEM_ALL_PHOTOS)
        if !hasAllPhotos then
          RouteResult.err 403 "All-photos bundle was not purchased."
        else
          let photos := db.photos.filter (bundleEligible purchase.eventId)
          RouteResult.ok
            (photos.map (fun ph => (ph.id, createSignedDownloadUrl ph.storageKey 600)))

/-- C2: a grant issued for purchase B never verifies against a request for
a distinct purchase A — even when its signature is valid and it is
unexpired — and the single-photo download endpoint answers 401 Unauthorized
in that case; conversely, verification succeeds only when the grant's
embedded purchase id equals the purchase id supplied in the request path. -/
theorem C2_grant_bound_to_purchase (secret : String) (now : Nat) (A : String)
    (t : PurchaseAccessToken) (hsig : t.signedWith = secret)
    (hexp : now < t.exp) (hne : t.purchaseId ≠ A) :
    verifyPurchaseAccessToken secret now A t = VerifyOutcome.invalid ∧
    (∀ (db : Db) (photoId : String),
      downloadPhotoRoute secret now db A photoId (some t)
        = RouteResult.err 401 "Invalid purchase access token.") ∧
    (∀ (db : Db),
      downloadAllRoute secret now db A (some t)
        = RouteResult.err 401 "Invalid purchase access token.") ∧
    (∀ (B : String) (t2 : PurchaseAccessToken),
      verifyPurchaseAccessToken secret now B t2 = VerifyOutcome.ok →
        t2.purchaseId = B) := by
  have hver : verifyPurchaseAccessToken secret now A t = VerifyOutcome.invalid := by
    unfold verifyPurchaseAccessToken jwtVerifyToken
    rw [if_pos ⟨hsig, hexp⟩]
    simp [hne]
  refine ⟨hver, ?_, ?_, ?_⟩
  · intro db photoId
    simp [downloadPhotoRoute, hver]
  · intro db
    simp [downloadAllRoute, hver]
  · intro B t2 hok
    unfold verifyPurchaseAccessToken jwtVerifyToken at hok
    by_cases h : t2.signedWith = secret ∧ now < t2.exp
    · rw [if_pos h] at hok
      by_cases h2 : t2.purchaseId = B
      · exact h2
      · simp [h2] at hok
    · rw [if_neg h] at hok
      cases hok

/-- Witness for C2: a fresh, validly signed, unexpired token for purchase
`pur_B` is rejected when presented for purchase `pur_A`. -/
theorem C2_grant_bound_witness :
    verifyPurchaseAccessToken "tok-secret" 0 "pur_A"
      (signPurchaseAccessToken "tok-secret" 0 "pur_B") = VerifyOutcome.invalid :=
  (C2_grant_bound_to_purchase "tok-secret" 0 "pur_A"
    (signPurchaseAccessToken "tok-secret" 0 "pur_B") rfl (by decide) (by decide)).1

/-- C10: the single-photo download path checks only that the photo belongs
to the purchase's event and is uploaded — never its publication state — so
with a valid grant, a paid purchase, and entitlement coverage it returns a
signed URL even for a photo whose status is `DRAFT`. -/
theorem C10_single_photo_download_ignores_publication (secret : String)
    (now : Nat) (db : Db) (purchaseId photoId : String)
    (t : PurchaseAccessToken) (purchase : Purchase)
    (items : List PurchaseItem) (photo : Photo)
    (hver : verifyPurchaseAccessToken secret now purchaseId t = VerifyOutcome.ok)
    (hpur : getPaidPurchaseWithItems db purchaseId = some (purchase, items))
    (hcover : items.any (fun it => it.itemType = PURCHASE_ITEM_ALL_PHOTOS) = true
      ∨ items.any (fun it => it.photoId = some photoId) = true)
    (hfind : db.photos.find?
        (fun ph => ph.id = photoId ∧ ph.eventId = purchase.eventId ∧ ph.isUploaded = true)
      = some photo)
    (_hdraft : photo.status = PhotoStatus.DRAFT) :
    downloadPhotoRoute secret now db purchaseId photoId (some t)
      = RouteResult.ok (photo.id, createSignedDownloadUrl photo.storageKey 600) := by
  have hcond : (!items.any (fun it => it.itemType = PURCHASE_ITEM_ALL_PHOTOS)
      && !items.any (fun it => it.photoId = some photoId)) = false := by
    rcases hcover with h | h <;> simp [h]
  simp only [downloadPhotoRoute, hver, hpur, hcond, Bool.false_eq_true, if_false, hfind]

/-- Witness for C10: a concrete paid purchase of one single photo, whose
photo is still a `DRAFT`, is downloadable. -/
theorem C10_single_photo_download_witness :
    downloadPhotoRoute "tok-secret" 0
      ({ purchases := [{ id := "PUR5", eventId := "E5", buyerEmail := "g@example.com",
                         stripeSessionId := "cs_5", stripePaymentId := some "pi_5",
                         status := PurchaseStatus.PAID, amountTotal := 700,
                         currency := "usd", payoutStatus := "pending" }]
         purchaseItems := [{ id := "item5", purchaseId := "PUR5",
                             itemType := PURCHASE_ITEM_SINGLE_PHOTO,
                             photoId := some "P5", amount := 700 }]
         photos := [{ id := "P5", eventId := "E5", storageKey := "k5",
                      status := PhotoStatus.DRAFT, isUploaded := true }] } : Db)
      "PUR5" "P5" (some (signPurchaseAccessToken "tok-secret" 0 "PUR5"))
      = RouteResult.ok ("P5", createSignedDownloadUrl "k5" 600) :=
  C10_single_photo_download_ignores_publication "tok-secret" 0 _ "PUR5" "P5"
    (signPurchaseAccessToken "tok-secret" 0 "PUR5")
    { id := "PUR5", eventId := "E5", buyerEmail := "g@example.com",
      stripeSessionId := "cs_5", stripePaymentId := some "pi_5",
      status := PurchaseStatus.PAID, amountTotal := 700,
      currency := "usd", payoutStatus := "pending" }
    [{ id := "item5", purchaseId := "PUR5",
       itemType := PURCHASE_ITEM_SINGLE_PHOTO,
       photoId := some "P5", amount := 700 }]
    { id := "P5", eventId := "E5", storageKey := "k5",
      status := PhotoStatus.DRAFT, isUploaded := true }
    (by decide) (by decide) (Or.inr (by decide)) (by decide) rfl

/-- C3: with a valid grant and a paid purchase, the bundle download returns
exactly one signed URL per photo of the purchase's event that is uploaded
and currently published — evaluated against the photo table as it stands at
request time, so photos published after the purchase was paid are included —
when the purchase has an all-photos item; without one it is denied (403). -/
theorem C3_bundle_download_covers_current_published (secret : String)
    (now : Nat) (db : Db) (purchaseId : String) (t : PurchaseAccessToken)
    (purchase : Purchase) (items : List PurchaseItem)
    (hver : verifyPurchaseAccessToken secret now purchaseId t = VerifyOutcome.ok)
    (hpur : getPaidPurchaseWithItems db purchaseId = some (purchase, items))
    (hnodup : (db.photos.map Photo.id).Nodup) :
    (items.any (fun it => it.itemType = PURCHASE_ITEM_ALL_PHOTOS) = true →
      ∃ files,
        downloadAllRoute secret now db purchaseId (some t) = RouteResult.ok files ∧
        files = (db.photos.filter (bundleEligible purchase.eventId)).map
          (fun ph => (ph.id, createSignedDownloadUrl ph.storageKey 600)) ∧
        (∀ ph ∈ db.photos, bundleEligible purchase.eventId ph = true →
          (files.map Prod.fst).count ph.id = 1) ∧
        (∀ pid ∈ files.map Prod.fst,
          ∃ ph ∈ db.photos, ph.id = pid ∧ bundleEligible purchase.eventId ph = true)) ∧
    (items.any (fun it => it.itemType = PURCHASE_ITEM_ALL_PHOTOS) = false →
      downloadAllRoute secret now db purchaseId (some t)
        = RouteResult.err 403 "All-photos bundle was not purchased.") := by
  constructor
  · intro hall
    refine ⟨_, ?_, rfl, ?_, ?_⟩
    · simp only [downloadAllRoute, hver, hpur, hall, Bool.not_true, Bool.false_eq_true,
        if_false]
    · intro ph hmem helig
      have hsub : ((db.photos.filter (bundleEligible purchase.eventId)).map Photo.id).Sublist
          (db.photos.map Photo.id) :=
        (List.filter_sublist db.photos).map Photo.id
      have hnd : ((db.photos.filter (bundleEligible purchase.eventId)).map Photo.id).Nodup :=
        hnodup.sublist hsub
      have hmem2 : ph ∈ db.photos.filter (bundleEligible purchase.eventId) :=
        List.mem_filter.mpr ⟨hmem, helig⟩
      have hmem3 : ph.id ∈ (db.photos.filter (bundleEligible purchase.eventId)).map Photo.id :=
        List.mem_map.mpr ⟨ph, hmem2, rfl⟩
      rw [List.map_map]
      have : (Prod.fst ∘ fun ph => (ph.id, createSignedDownloadUrl ph.storageKey 600))
          = Photo.id := rfl
      rw [this]
      exact List.count_eq_one_of_mem hnd hmem3
    · intro pid hpid
      rw [List.map_map] at hpid
      rcases List.mem_map.mp hpid with ⟨ph, hmem, hid⟩
      rcases List.mem_filter.mp hmem with ⟨hm, helig⟩
      exact ⟨ph, hm, hid, helig⟩
  · intro hnone
    simp only [downloadAllRoute, hver, hpur, hnone, Bool.not_false, if_true]

/-- Concrete fixture for the C3 witness: purchase `PUR1` for event `E1`
with one all-photos item; photo `P9` published (after the purchase was
paid) and uploaded. -/
def dbC3witness : Db :=
  { purchases := [{ id := "PUR1", eventId := "E1", buyerEmail := "g@example.com",
                    stripeSessionId := "cs_1", stripePaymentId := some "pi_1",
                    status := PurchaseStatus.PAID, amountTotal := 2000,
                    currency := "usd", payoutStatus := "pending" }]
    purchaseItems := [{ id := "item1", purchaseId := "PUR1",
                        itemType := PURCHASE_ITEM_ALL_PHOTOS,
                        photoId := none, amount := 2000 }]
    photos := [{ id := "P9", eventId := "E1", storageKey := "k9",
                 status := PhotoStatus.PUBLISHED, isUploaded := true }] }

/-- Witness for C3, mirroring the spec scenario: purchase `PUR1` for event
`E1` holds an all-photos item, and photo `P9` was published after the
purchase was paid; the bundle download includes exactly the currently
published, uploaded photos of `E1`. -/
theorem C3_bundle_download_witness :
    ∃ files,
      downloadAllRoute "tok-secret" 0 dbC3witness "PUR1"
          (some (signPurchaseAccessToken "tok-secret" 0 "PUR1"))
        = RouteResult.ok files ∧
      files = (dbC3witness.photos.filter (bundleEligible "E1")).map
        (fun ph => (ph.id, createSignedDownloadUrl ph.storageKey 600)) ∧
      (∀ ph ∈ dbC3witness.photos, bundleEligible "E1" ph = true →
        (files.map Prod.fst).count ph.id = 1) ∧
      (∀ pid ∈ files.map Prod.fst,
        ∃ ph ∈ dbC3witness.photos, ph.id = pid ∧ bundleEligible "E1" ph = true) :=
  (C3_bundle_download_covers_current_published "tok-secret" 0 dbC3witness "PUR1"
    (signPurchaseAccessToken "tok-secret" 0 "PUR1")
    { id := "PUR1", eventId := "E1", buyerEmail := "g@example.com",
      stripeSessionId := "cs_1", stripePaymentId := some "pi_1",
      status := PurchaseStatus.PAID, amountTotal := 2000,
      currency := "usd", payoutStatus := "pending" }
    [{ id := "item1", purchaseId := "PUR1",
       itemType := PURCHASE_ITEM_ALL_PHOTOS,
       photoId := none, amount := 2000 }]
    (by decide) (by decide) (by decide)).1 (by decide)

/-! ## Face index and selfie matcher (Rekognition face-search module)

Provider round trips either throw (an error identified by its `name`, which
the code branches on) or return a response; each call's outcome is an
explicit input of the embedded function. JavaScript string truthiness
(`!faceId`, `Boolean(value)`) treats the empty string as falsy. -/

/-- The face-search configuration (`getFaceSearchConfig` result). -/
structure FaceSearchConfig where
  bucket : String
  collectionId : String
  region : String
deriving DecidableEq, Repr

/-- A thrown provider exception, identified by its `name`. -/
structure ProviderError where
  name : String
  message : String
deriving DecidableEq, Repr

/-- JavaScript truthiness on an optional string: `undefined`, `null` and the
empty string are falsy. -/
def jsTruthyString : Option String → Option String
  | some s => if s = "" then none else some s
  | none => none

/-- One element of `IndexFacesCommand`'s `FaceRecords` response, collapsing
the `record.Face?.FaceId` / `record.Face?.Confidence` optional chains. -/
structure RawFaceRecord where
  faceId : Option String
  confidence : Option Rat
deriving DecidableEq, Repr

/-- The provider round trips one `indexPhotoFace` call can make, in call
order. `clearDeleteOutcome` (the `DeleteFacesCommand` inside
`clearExistingPhotoFaces`) is swallowed by its own `catch` and so never
affects the result; it is listed for completeness. -/
structure IndexProviderBehavior where
  ensureCollectionOutcome : Except ProviderError Unit
  clearDeleteOutcome : Except ProviderError Unit
  indexFacesOutcome : Except ProviderError (List RawFaceRecord)
  extraDeleteOutcome : Except ProviderError Unit
deriving Repr

/-- `clearExistingPhotoFaces`, local effect: after the best-effort (and
swallowed) provider-side deletion, `deleteMany` removes every local
`FaceEmbedding` of this photo for `FACE_PROVIDER`. -/
def clearExistingPhotoFaces (photoId : String)
    (db : List FaceEmbedding) : List FaceEmbedding :=
  db.filter (fun f => ¬(f.photoId = photoId ∧ f.provider = FACE_PROVIDER))

/-- Status of `indexPhotoFace`. -/
inductive FaceIndexStatus where
  | indexed
  | no_face_detected
  | disabled
  | error
deriving DecidableEq, Repr

/-- Result record of `indexPhotoFace`. -/
structure FaceIndexResult where
  status : FaceIndexStatus
  message : Option String
deriving DecidableEq, Repr

/-- `indexPhotoFace`: `disabled` without configuration; otherwise, inside
one `try`: ensure the collection, clear this photo's prior faces, submit
the image (`MaxFaces: 1`); a missing/falsy first face id means
`no_face_detected`; when the provider returned more than one face record,
the extra face ids (truthy ones) are deleted provider-side — **inside the
same `try`, with no catch of its own** — then the single `FaceEmbedding`
row is created and `indexed` returned. Any throw reaching the `catch`
yields `error`, with the database in whatever state the completed steps
left it. -/
def indexPhotoFace (config : Option FaceSearchConfig)
    (provider : IndexProviderBehavior) (photo : Photo)
    (db : List FaceEmbedding) : FaceIndexResult × List FaceEmbedding :=
  match config with
  | none =>
    ({ status := FaceIndexStatus.disabled,
       message := some "Face search is not configured." }, db)
  | some _ =>
    match provider.ensureCollectionOutcome with
    | Except.error e =>
      ({ status := FaceIndexStatus.error, message := some e.message }, db)
    | Except.ok _ =>
      let cleared := clearExistingPhotoFaces photo.id db
      match provider.indexFacesOutcome with
      | Except.error e =>
        ({ status := FaceIndexStatus.error, message := some e.message }, cleared)
      | Except.ok faceRecords =>
        match jsTruthyString (faceRecords.head?.bind RawFaceRecord.faceId) with
        | none =>
          ({ status := FaceIndexStatus.no_face_detected,
             message := some "No clear face detected in this photo." }, cleared)
        | some faceId =>
          let extraStep : Except ProviderError Unit :=
            if 1 < faceRecords.length then
              let extraFaceIds :=
                (faceRecords.drop 1).filterMap (fun r => jsTruthyString r.faceId)
              if 0 < extraFaceIds.length then provider.extraDeleteOutcome
              else Except.ok ()
            else Except.ok ()
          match extraStep with
          | Except.error e =>
            ({ status := FaceIndexStatus.error, message := some e.message }, cleared)
          | Except.ok _ =>
            ({ status := FaceIndexStatus.indexed, message := none },
              cleared ++
                [{ photoId := photo.id, provider := FACE_PROVIDER,
                   externalId := faceId,
                   confidence := faceRecords.head?.bind RawFaceRecord.confidence }])

/-- Number of local `FaceEmbedding` rows for a photo under `FACE_PROVIDER`. -/
def countFaceRecords (db : List FaceEmbedding) (photoId : String) : Nat :=
  (db.filter (fun f => f.photoId = photoId ∧ f.provider = FACE_PROVIDER)).length

/-! ## Selfie matcher (`findSelfieMatches`) -/

/-- One element of `SearchFacesByImageCommand`'s `FaceMatches`: the
`match.Face?.FaceId` chain and the (possibly non-numeric, hence optional)
`match.Similarity`. -/
structure RawFaceMatch where
  faceId : Option String
  similarity : Option Rat
deriving DecidableEq, Repr

/-- The provider round trips of one `findSelfieMatches` call. -/
structure SearchProviderBehavior where
  ensureCollectionOutcome : Except ProviderError Unit
  searchOutcome : Except ProviderError (List RawFaceMatch)
deriving Repr

/-- The tables the selfie matcher reads. -/
structure GalleryDb where
  photos : List Photo
  faces : List FaceEmbedding
deriving Repr

/-- Lookup in a JavaScript `Map` modelled as an insertion-ordered
association list. -/
def mapGet {α : Type} (m : List (String × α)) (k : String) : Option α :=
  (m.find? (fun kv => kv.fst = k)).map Prod.snd

/-- `Map.set`: update in place when the key exists (keeping its position),
append otherwise. -/
def mapSet {α : Type} (k : String) (v : α) :
    List (String × α) → List (String × α)
  | [] => [(k, v)]
  | kv :: rest => if kv.fst = k then (k, v) :: rest else kv :: mapSet k v rest

/-- The `similarityByFaceId` map: fold over the provider matches, skipping
entries without a truthy face id or a numeric similarity, and keeping the
strictly larger similarity per face handle (the read of an absent key
defaults to 0). -/
def similarityByFaceId (faceMatches : List RawFaceMatch) : List (String × Rat) :=
  faceMatches.foldl
    (fun m mt =>
      match jsTruthyString mt.faceId, mt.similarity with
      | some faceId, some similarity =>
        let previous := (mapGet m faceId).getD 0
        if previous < similarity then mapSet faceId similarity m else m
      | _, _ => m)
    []

/-- The `prisma.faceEmbedding.findMany` of the matcher: rows for
`FACE_PROVIDER` whose `externalId` is among the surviving face ids and
whose related photo belongs to the requested event, is `PUBLISHED`, and is
uploaded; each row is returned together with its included photo. -/
def findEligibleEmbeddings (gdb : GalleryDb) (eventId : String)
    (faceIds : List String) : List (FaceEmbedding × Photo) :=
  gdb.faces.filterMap (fun f =>
    if f.provider = FACE_PROVIDER ∧ f.externalId ∈ faceIds then
      (gdb.photos.find? (fun ph => ph.id = f.photoId)).bind (fun ph =>
        if ph.eventId = eventId ∧ ph.status = PhotoStatus.PUBLISHED ∧ ph.isUploaded = true
        then some (f, ph) else none)
    else none)

/-- The `bestByPhotoId` map: fold over the eligible embeddings, keeping per
photo id the highest similarity seen (first-wins on ties), with the photo
that came with the winning row. -/
def bestByPhotoId (simByFace : List (String × Rat))
    (embeddings : List (FaceEmbedding × Photo)) :
    List (String × (Rat × Photo)) :=
  embeddings.foldl
    (fun m fp =>
      let similarity := (mapGet simByFace fp.1.externalId).getD 0
      match mapGet m fp.1.photoId with
      | none => mapSet fp.1.photoId (similarity, fp.2) m
      | some previous =>
        if previous.1 < similarity then mapSet fp.1.photoId (similarity, fp.2) m
        else m)
    []

/-- A photo as serialized for guest-facing responses (`serializePhoto`):
identity and state fields plus the minted preview URL (default TTL 3600 s).
Timestamp and dimension fields are not part of the embedding. -/
structure SerializedPhoto where
  id : String
  eventId : String
  status : PhotoStatus
  previewUrl : SignedUrl
deriving DecidableEq, Repr

/-- `serializePhoto`. -/
def serializePhoto (photo : Photo) : SerializedPhoto :=
  { id := photo.id, eventId := photo.eventId, status := photo.status,
    previewUrl := createSignedDownloadUrl photo.storageKey 3600 }

/-- One ranked selfie match. -/
structure SelfieMatchItem where
  similarity : Rat
  photo : SerializedPhoto
deriving DecidableEq, Repr

/-- Status of `findSelfieMatches`. -/
inductive SelfieSearchStatus where
  | ok
  | no_matches
  | no_face_detected
  | disabled
  | error
deriving DecidableEq, Repr

/-- Result record of `findSelfieMatches`. Its `matchList` field embeds the
source's `matches` field (`matches` is a reserved word in Lean). -/
structure SelfieSearchResult where
  status : SelfieSearchStatus
  matchList : List SelfieMatchItem
  message : Option String
deriving DecidableEq, Repr

/-- `findSelfieMatches`: `disabled` without configuration; otherwise ensure
the collection and search by image (both inside the `try`: a thrown
`InvalidParameterException` becomes `no_face_detected`, any other throw
becomes `error`); an empty `FaceMatches` list is `no_matches`; then
deduplicate by face handle (`similarityByFaceId`) — if no usable handle
survives, `no_face_detected` —; resolve the handles to eligible local
embeddings — if none, `no_matches` —; aggregate per photo, sort descending
by similarity (JavaScript's stable sort), truncate to `limit`, and
serialize. -/
def findSelfieMatches (config : Option FaceSearchConfig)
    (provider : SearchProviderBehavior) (gdb : GalleryDb)
    (eventId : String) (limit : Nat) : SelfieSearchResult :=
  match config with
  | none =>
    { status := SelfieSearchStatus.disabled, matchList := [],
      message := some "Face search is not configured." }
  | some _ =>
    let attempt : Except ProviderError (List RawFaceMatch) :=
      match provider.ensureCollectionOutcome with
      | Except.error e => Except.error e
      | Except.ok _ => provider.searchOutcome
    match attempt with
    | Except.error e =>
      if e.name = "InvalidParameterException" then
        { status := SelfieSearchStatus.no_face_detected, matchList := [],
          message := some "No face detected in the selfie." }
      else
        { status := SelfieSearchStatus.error, matchList := [],
          message := some e.message }
    | Except.ok faceMatches =>
      if faceMatches.length = 0 then
        { status := SelfieSearchStatus.no_matches, matchList := [], message := none }
      else
        let simByFace := similarityByFaceId faceMatches
        let faceIds := simByFace.map Prod.fst
        if faceIds.length = 0 then
          { status := SelfieSearchStatus.no_face_detected, matchList := [],
            message := some "No face detected in the selfie." }
        else
          let faceEmbeddings := findEligibleEmbeddings gdb eventId faceIds
          if faceEmbeddings.length = 0 then
            { status := SelfieSearchStatus.no_matches, matchList := [], message := none }
          else
            let best := bestByPhotoId simByFace faceEmbeddings
            let topMatches :=
              ((best.map Prod.snd).mergeSort
                (fun a b => decide (b.1 ≤ a.1))).take limit
            { status := SelfieSearchStatus.ok,
              matchList := topMatches.map
                (fun m => { similarity := m.1, photo := serializePhoto m.2 }),
              message := none }

lemma countFaceRecords_clear (photoId : String) (db : List FaceEmbedding) :
    countFaceRecords (clearExistingPhotoFaces photoId db) photoId = 0 := by
  rw [countFaceRecords, List.length_eq_zero, List.filter_eq_nil_iff]
  intro f hf
  rcases List.mem_filter.mp hf with ⟨-, h2⟩
  simp only [decide_not, Bool.not_eq_true', decide_eq_false_iff_not] at h2
  simpa using h2

lemma countFaceRecords_append (db1 db2 : List FaceEmbedding) (photoId : String) :
    countFaceRecords (db1 ++ db2) photoId
      = countFaceRecords db1 photoId + countFaceRecords db2 photoId := by
  simp [countFaceRecords, List.filter_append]

lemma indexPhotoFace_count_single (c : FaceSearchConfig)
    (b : IndexProviderBehavior) (photo : Photo) (db : List FaceEmbedding)
    (faces : List RawFaceRecord)
    (he : b.ensureCollectionOutcome = Except.ok ())
    (hi : b.indexFacesOutcome = Except.ok faces)
    (hlen : faces.length ≤ 1) :
    countFaceRecords (indexPhotoFace (some c) b photo db).2 photo.id
      = (match jsTruthyString (faces.head?.bind RawFaceRecord.faceId) with
         | some _ => 1
         | none => 0) := by
  simp only [indexPhotoFace, he, hi]
  cases hj : jsTruthyString (faces.head?.bind RawFaceRecord.faceId) with
  | none => simpa using countFaceRecords_clear photo.id db
  | some fid =>
    have hnl : ¬(1 < faces.length) := by omega
    simp only [hnl, if_false]
    rw [countFaceRecords_append, countFaceRecords_clear, Nat.zero_add]
    simp [countFaceRecords, FACE_PROVIDER]

/-- C7: indexing a photo is idempotent when each run sees at most one
detected face: after indexing twice (both runs reaching the provider
successfully), the photo has exactly one `FaceEmbedding` row if the second
run detected a usable face, zero if it detected none — never two — because
`clearExistingPhotoFaces` removes all prior rows for the photo before the
new detection is recorded. -/
theorem C7_reindex_idempotent (c : FaceSearchConfig)
    (b1 b2 : IndexProviderBehavior) (photo : Photo) (db : List FaceEmbedding)
    (faces1 faces2 : List RawFaceRecord)
    (_h1e : b1.ensureCollectionOutcome = Except.ok ())
    (_h1i : b1.indexFacesOutcome = Except.ok faces1)
    (_h1len : faces1.length ≤ 1)
    (h2e : b2.ensureCollectionOutcome = Except.ok ())
    (h2i : b2.indexFacesOutcome = Except.ok faces2)
    (h2len : faces2.length ≤ 1) :
    countFaceRecords
        (indexPhotoFace (some c) b2 photo
          (indexPhotoFace (some c) b1 photo db).2).2 photo.id
      = (match jsTruthyString (faces2.head?.bind RawFaceRecord.faceId) with
         | some _ => 1
         | none => 0) ∧
    countFaceRecords
        (indexPhotoFace (some c) b2 photo
          (indexPhotoFace (some c) b1 photo db).2).2 photo.id ≤ 1 := by
  have h := indexPhotoFace_count_single c b2 photo
    (indexPhotoFace (some c) b1 photo db).2 faces2 h2e h2i h2len
  refine ⟨h, ?_⟩
  rw [h]
  cases jsTruthyString (faces2.head?.bind RawFaceRecord.faceId) <;> simp

/-- Witness for C7: photo `P1` indexed twice with the provider reporting
the same single face both times ends with exactly one `FaceEmbedding`. -/
theorem C7_reindex_idempotent_witness :
    countFaceRecords
        (indexPhotoFace
          (some { bucket := "b", collectionId := "c", region := "r" })
          { ensureCollectionOutcome := Except.ok ()
            clearDeleteOutcome := Except.ok ()
            indexFacesOutcome := Except.ok [{ faceId := some "F1", confidence := some 99 }]
            extraDeleteOutcome := Except.ok () }
          { id := "P1", eventId := "E1", storageKey := "k1",
            status := PhotoStatus.PUBLISHED, isUploaded := true }
          (indexPhotoFace
            (some { bucket := "b", collectionId := "c", region := "r" })
            { ensureCollectionOutcome := Except.ok ()
              clearDeleteOutcome := Except.ok ()
              indexFacesOutcome := Except.ok [{ faceId := some "F1", confidence := some 99 }]
              extraDeleteOutcome := Except.ok () }
            { id := "P1", eventId := "E1", storageKey := "k1",
              status := PhotoStatus.PUBLISHED, isUploaded := true }
            []).2).2 "P1"
      = 1 :=
  (C7_reindex_idempotent { bucket := "b", collectionId := "c", region := "r" }
    { ensureCollectionOutcome := Except.ok ()
      clearDeleteOutcome := Except.ok ()
      indexFacesOutcome := Except.ok [{ faceId := some "F1", confidence := some 99 }]
      extraDeleteOutcome := Except.ok () }
    { ensureCollectionOutcome := Except.ok ()
      clearDeleteOutcome := Except.ok ()
      indexFacesOutcome := Except.ok [{ faceId := some "F1", confidence := some 99 }]
      extraDeleteOutcome := Except.ok () }
    { id := "P1", eventId := "E1", storageKey := "k1",
      status := PhotoStatus.PUBLISHED, isUploaded := true }
    [] [{ faceId := some "F1", confidence := some 99 }]
    [{ faceId := some "F1", confidence := some 99 }]
    rfl rfl (by decide) rfl rfl (by decide)).1

/-- C5 counterexample: with two detected faces and a failing extra-face
`DeleteFacesCommand`, `indexPhotoFace` returns `error` and creates **no**
`FaceEmbedding` — the extra-face deletion sits inside the `try` with no
catch of its own, so its failure is fatal, contrary to the claim that the
photo would still end up indexed with one FaceRecord. -/
theorem C5_extra_delete_fatal_counterexample :
    (indexPhotoFace
        (some { bucket := "b", collectionId := "c", region := "r" })
        { ensureCollectionOutcome := Except.ok ()
          clearDeleteOutcome := Except.ok ()
          indexFacesOutcome := Except.ok
            [{ faceId := some "F1", confidence := some 99 },
             { faceId := some "F2", confidence := some 98 }]
          extraDeleteOutcome :=
            Except.error { name := "InternalServerError", message := "boom" } }
        { id := "P1", eventId := "E1", storageKey := "k1",
          status := PhotoStatus.PUBLISHED, isUploaded := true }
        [])
      = ({ status := FaceIndexStatus.error, message := some "boom" }, []) ∧
    FaceIndexStatus.error ≠ FaceIndexStatus.indexed ∧
    countFaceRecords
      (indexPhotoFace
        (some { bucket := "b", collectionId := "c", region := "r" })
        { ensureCollectionOutcome := Except.ok ()
          clearDeleteOutcome := Except.ok ()
          indexFacesOutcome := Except.ok
            [{ faceId := some "F1", confidence := some 99 },
             { faceId := some "F2", confidence := some 98 }]
          extraDeleteOutcome :=
            Except.error { name := "InternalServerError", message := "boom" } }
        { id := "P1", eventId := "E1", storageKey := "k1",
          status := PhotoStatus.PUBLISHED, isUploaded := true }
        []).2 "P1" = 0 := by
  refine ⟨rfl, by decide, rfl⟩

/-- C5 (amended): when the provider reports more than one face (with truthy
extra face ids), the code keeps the first face and attempts to delete the
extras provider-side, but that deletion is **not** best-effort: if it
throws, the whole call returns `error` and no `FaceEmbedding` is created
(the photo is left with zero rows, its prior rows having been cleared);
only when the deletion succeeds is the first face recorded and `indexed`
returned. -/
theorem C5_extra_delete_error_is_fatal (c : FaceSearchConfig)
    (b : IndexProviderBehavior) (photo : Photo) (db : List FaceEmbedding)
    (faces : List RawFaceRecord) (fid : String)
    (hens : b.ensureCollectionOutcome = Except.ok ())
    (hidx : b.indexFacesOutcome = Except.ok faces)
    (hfirst : jsTruthyString (faces.head?.bind RawFaceRecord.faceId) = some fid)
    (hlen : 1 < faces.length)
    (hextra : 0 < ((faces.drop 1).filterMap (fun r => jsTruthyString r.faceId)).length) :
    (∀ e, b.extraDeleteOutcome = Except.error e →
      (indexPhotoFace (some c) b photo db).1.status = FaceIndexStatus.error ∧
      countFaceRecords (indexPhotoFace (some c) b photo db).2 photo.id = 0) ∧
    (b.extraDeleteOutcome = Except.ok () →
      (indexPhotoFace (some c) b photo db).1.status = FaceIndexStatus.indexed ∧
      countFaceRecords (indexPhotoFace (some c) b photo db).2 photo.id = 1) := by
  constructor
  · intro e he
    simp only [indexPhotoFace, hens, hidx, hfirst, hlen, if_true, hextra, he]
    exact ⟨trivial, countFaceRecords_clear photo.id db⟩
  · intro he
    simp only [indexPhotoFace, hens, hidx, hfirst, hlen, if_true, hextra, he]
    refine ⟨trivial, ?_⟩
    rw [countFaceRecords_append, countFaceRecords_clear, Nat.zero_add]
    simp [countFaceRecords, FACE_PROVIDER]

/-- Witness for C5's amended theorem: both branches at a concrete
two-face response. -/
theorem C5_extra_delete_error_witness :
    (indexPhotoFace
        (some { bucket := "b", collectionId := "c", region := "r" })
        { ensureCollectionOutcome := Except.ok ()
          clearDeleteOutcome := Except.ok ()
          indexFacesOutcome := Except.ok
            [{ faceId := some "F1", confidence := some 99 },
             { faceId := some "F2", confidence := some 98 }]
          extraDeleteOutcome :=
            Except.error { name := "InternalServerError", message := "boom" } }
        { id := "P2", eventId := "E2", storageKey := "k2",
          status := PhotoStatus.PUBLISHED, isUploaded := true }
        []).1.status = FaceIndexStatus.error ∧
    countFaceRecords
      (indexPhotoFace
        (some { bucket := "b", collectionId := "c", region := "r" })
        { ensureCollectionOutcome := Except.ok ()
          clearDeleteOutcome := Except.ok ()
          indexFacesOutcome := Except.ok
            [{ faceId := some "F1", confidence := some 99 },
             { faceId := some "F2", confidence := some 98 }]
          extraDeleteOutcome :=
            Except.error { name := "InternalServerError", message := "boom" } }
        { id := "P2", eventId := "E2", storageKey := "k2",
          status := PhotoStatus.PUBLISHED, isUploaded := true }
        []).2 "P2" = 0 :=
  (C5_extra_delete_error_is_fatal { bucket := "b", collectionId := "c", region := "r" }
    { ensureCollectionOutcome := Except.ok ()
      clearDeleteOutcome := Except.ok ()
      indexFacesOutcome := Except.ok
        [{ faceId := some "F1", confidence := some 99 },
         { faceId := some "F2", confidence := some 98 }]
      extraDeleteOutcome :=
        Except.error { name := "InternalServerError", message := "boom" } }
    { id := "P2", eventId := "E2", storageKey := "k2",
      status := PhotoStatus.PUBLISHED, isUploaded := true }
    []
    [{ faceId := some "F1", confidence := some 99 },
     { faceId := some "F2", confidence := some 98 }]
    "F1" rfl rfl (by decide) (by decide) (by decide)).1
    { name := "InternalServerError", message := "boom" } rfl

lemma findSelfieMatches_status_formula (c : FaceSearchConfig)
    (provider : SearchProviderBehavior) (gdb : GalleryDb)
    (eventId : String) (limit : Nat)
    (hens : provider.ensureCollectionOutcome = Except.ok ()) :
    (findSelfieMatches (some c) provider gdb eventId limit).status =
      match provider.searchOutcome with
      | Except.error e =>
        if e.name = "InvalidParameterException" then SelfieSearchStatus.no_face_detected
        else SelfieSearchStatus.error
      | Except.ok raw =>
        if raw = [] then SelfieSearchStatus.no_matches
        else if similarityByFaceId raw = [] then SelfieSearchStatus.no_face_detected
        else if findEligibleEmbeddings gdb eventId
            ((similarityByFaceId raw).map Prod.fst) = [] then
          SelfieSearchStatus.no_matches
        else SelfieSearchStatus.ok := by
  simp only [findSelfieMatches, hens]
  cases hs : provider.searchOutcome with
  | error e => by_cases hn : e.name = "InvalidParameterException" <;> simp [hn]
  | ok raw =>
    by_cases h1 : raw = []
    · simp [h1]
    · have h1l : ¬(raw.length = 0) := by simpa [List.length_eq_zero] using h1
      by_cases h2 : similarityByFaceId raw = []
      · simp [h1, h1l, h2]
      · have h2l : ¬(((similarityByFaceId raw).map Prod.fst).length = 0) := by
          simpa [List.length_eq_zero, List.map_eq_nil_iff] using h2
        by_cases h3 : findEligibleEmbeddings gdb eventId
            ((similarityByFaceId raw).map Prod.fst) = []
        · simp [h1, h1l, h2, h2l, h3]
        · have h3l : ¬((findEligibleEmbeddings gdb eventId
              ((similarityByFaceId raw).map Prod.fst)).length = 0) := by
            simpa [List.length_eq_zero] using h3
          simp [h1, h1l, h2, h2l, h3, h3l]

/-- C6 counterexample: the provider returns a (nonempty) match list — it
did **not** signal an invalid-image-parameter condition — yet because no
entry carries a positive similarity, the deduplication map stays empty and
`findSelfieMatches` answers `no_face_detected`. So `no_face_detected` does
not hold *exactly* when the provider signals invalid-image-parameter. -/
theorem C6_no_face_detected_counterexample :
    (findSelfieMatches
        (some { bucket := "b", collectionId := "c", region := "r" })
        { ensureCollectionOutcome := Except.ok ()
          searchOutcome := Except.ok [{ faceId := some "F1", similarity := some 0 }] }
        { photos := [], faces := [] } "E1" 24).status
      = SelfieSearchStatus.no_face_detected ∧
    ({ ensureCollectionOutcome := Except.ok ()
       searchOutcome := Except.ok [{ faceId := some "F1", similarity := some 0 }] }
      : SearchProviderBehavior).searchOutcome
      = Except.ok [{ faceId := some "F1", similarity := some 0 }] := by
  exact ⟨rfl, rfl⟩

/-- C6 (amended): with the provider configured and the collection check
succeeding, the result status is `no_face_detected` exactly when either the
provider signals an invalid-image-parameter condition, **or** the provider
returned a nonempty match list in which no entry carries a usable face
handle with positive similarity; and `no_matches` exactly when the provider
returned zero matches, or some handles survived but none resolves to an
eligible (published, uploaded, same-event) photo. -/
theorem C6_status_characterization (c : FaceSearchConfig)
    (provider : SearchProviderBehavior) (gdb : GalleryDb)
    (eventId : String) (limit : Nat)
    (hens : provider.ensureCollectionOutcome = Except.ok ()) :
    ((findSelfieMatches (some c) provider gdb eventId limit).status
        = SelfieSearchStatus.no_face_detected ↔
      (∃ e, provider.searchOutcome = Except.error e ∧
        e.name = "InvalidParameterException") ∨
      (∃ raw, provider.searchOutcome = Except.ok raw ∧ raw ≠ [] ∧
        similarityByFaceId raw = [])) ∧
    ((findSelfieMatches (some c) provider gdb eventId limit).status
        = SelfieSearchStatus.no_matches ↔
      provider.searchOutcome = Except.ok [] ∨
      (∃ raw, provider.searchOutcome = Except.ok raw ∧ raw ≠ [] ∧
        similarityByFaceId raw ≠ [] ∧
        findEligibleEmbeddings gdb eventId
          ((similarityByFaceId raw).map Prod.fst) = [])) := by
  rw [findSelfieMatches_status_formula c provider gdb eventId limit hens]
  cases hs : provider.searchOutcome with
  | error e =>
    by_cases hn : e.name = "InvalidParameterException" <;> simp [hn]
  | ok raw =>
    by_cases h1 : raw = []
    · simp [h1]
    · by_cases h2 : similarityByFaceId raw = []
      · simp [h1, h2]
      · by_cases h3 : findEligibleEmbeddings gdb eventId
            ((similarityByFaceId raw).map Prod.fst) = [] <;>
          simp [h1, h2, h3]

/-- Witness for C6's amended theorem: a concrete search whose provider
throws `InvalidParameterException` is classified `no_face_detected`. -/
theorem C6_status_characterization_witness :
    (findSelfieMatches
        (some { bucket := "b", collectionId := "c", region := "r" })
        { ensureCollectionOutcome := Except.ok ()
          searchOutcome :=
            Except.error { name := "InvalidParameterException", message := "bad image" } }
        { photos := [], faces := [] } "E1" 24).status
      = SelfieSearchStatus.no_face_detected :=
  (C6_status_characterization { bucket := "b", collectionId := "c", region := "r" }
    { ensureCollectionOutcome := Except.ok ()
      searchOutcome :=
        Except.error { name := "InvalidParameterException", message := "bad image" } }
    { photos := [], faces := [] } "E1" 24 rfl).1.mpr
    (Or.inl ⟨{ name := "InvalidParameterException", message := "bad image" }, rfl, rfl⟩)

/-- `findMeQuerySchema`'s `limit` field:
`z.coerce.number().int().min(1).max(50).optional().default(24)` — absent
means 24, an integer outside 1..50 is a validation failure. -/
def parseFindMeLimit : Option Int → Option Nat
  | none => some 24
  | some n => if 1 ≤ n ∧ n ≤ 50 then some n.toNat else none

lemma findSelfieMatches_matchList_shape (config : Option FaceSearchConfig)
    (provider : SearchProviderBehavior) (gdb : GalleryDb)
    (eventId : String) (limit : Nat) :
    (findSelfieMatches config provider gdb eventId limit).matchList = [] ∨
    ∃ raw, provider.searchOutcome = Except.ok raw ∧
      (findSelfieMatches config provider gdb eventId limit).matchList =
        ((((bestByPhotoId (similarityByFaceId raw)
            (findEligibleEmbeddings gdb eventId
              ((similarityByFaceId raw).map Prod.fst))).map
            Prod.snd).mergeSort (fun a b => decide (b.1 ≤ a.1))).take limit).map
          (fun m => { similarity := m.1, photo := serializePhoto m.2 }) := by
  cases config with
  | none => exact Or.inl rfl
  | some c =>
    simp only [findSelfieMatches]
    cases he : provider.ensureCollectionOutcome with
    | error e =>
      left
      by_cases hn : e.name = "InvalidParameterException" <;> simp [hn]
    | ok u =>
      cases hs : provider.searchOutcome with
      | error e =>
        left
        by_cases hn : e.name = "InvalidParameterException" <;> simp [hn]
      | ok raw =>
        by_cases h1 : raw = []
        · left; simp [h1]
        · by_cases h2 : similarityByFaceId raw = []
          · left; simp [h1, h2]
          · by_cases h3 : findEligibleEmbeddings gdb eventId
                ((similarityByFaceId raw).map Prod.fst) = []
            · left; simp [h1, h2, h3]
            · right
              refine ⟨raw, rfl, ?_⟩
              simp [h1, h2, h3, List.map_take]

/-- C8: every selfie-search result list is sorted by non-increasing
similarity and has length at most the caller-supplied `limit`; and the
`findMeQuerySchema` constrains any accepted caller-supplied `limit` to the
range 1..50. -/
theorem C8_matches_sorted_and_bounded (config : Option FaceSearchConfig)
    (provider : SearchProviderBehavior) (gdb : GalleryDb)
    (eventId : String) (limit : Nat) :
    List.Sorted (fun a b : SelfieMatchItem => b.similarity ≤ a.similarity)
      (findSelfieMatches config provider gdb eventId limit).matchList ∧
    (findSelfieMatches config provider gdb eventId limit).matchList.length ≤ limit ∧
    (∀ (q : Option Int) (l : Nat), parseFindMeLimit q = some l → 1 ≤ l ∧ l ≤ 50) := by
  have hshape := findSelfieMatches_matchList_shape config provider gdb eventId limit
  refine ⟨?_, ?_, ?_⟩
  · rcases hshape with h | ⟨raw, -, h⟩
    · rw [h]; exact List.sorted_nil
    · rw [h]
      have htrans : ∀ (a b c2 : Rat × Photo),
          (fun a b : Rat × Photo => decide (b.1 ≤ a.1)) a b = true →
          (fun a b : Rat × Photo => decide (b.1 ≤ a.1)) b c2 = true →
          (fun a b : Rat × Photo => decide (b.1 ≤ a.1)) a c2 = true := by
        intro a b c2 hab hbc
        simp only [decide_eq_true_eq] at hab hbc ⊢
        exact le_trans hbc hab
      have htotal : ∀ (a b : Rat × Photo),
          ((fun a b : Rat × Photo => decide (b.1 ≤ a.1)) a b ||
           (fun a b : Rat × Photo => decide (b.1 ≤ a.1)) b a) = true := by
        intro a b
        simp only [Bool.or_eq_true, decide_eq_true_eq]
        exact le_total b.1 a.1
      have hp := List.sorted_mergeSort htrans htotal
        ((bestByPhotoId (similarityByFaceId raw)
          (findEligibleEmbeddings gdb eventId
            ((similarityByFaceId raw).map Prod.fst))).map Prod.snd)
      have hp2 := hp.sublist (List.take_sublist limit _)
      apply List.pairwise_map.mpr
      refine hp2.imp ?_
      intro a b hab
      simpa using hab
  · rcases hshape with h | ⟨raw, -, h⟩ <;> rw [h] <;> simp [List.length_take]
  · intro q l h
    cases q with
    | none =>
      cases h
      exact ⟨by omega, by omega⟩
    | some n =>
      rw [parseFindMeLimit] at h
      by_cases hc : 1 ≤ n ∧ n ≤ 50
      · rw [if_pos hc] at h
        cases h
        exact ⟨by omega, by omega⟩
      · rw [if_neg hc] at h
        cases h

/-- Witness for C8 at a concrete search and a concrete accepted limit. -/
theorem C8_matches_sorted_witness :
    (1 ≤ 24 ∧ 24 ≤ 50) ∧
    (findSelfieMatches none
      { ensureCollectionOutcome := Except.ok (), searchOutcome := Except.ok [] }
      { photos := [], faces := [] } "E1" 24).matchList.length ≤ 24 :=
  ⟨(C8_matches_sorted_and_bounded none
      { ensureCollectionOutcome := Except.ok (), searchOutcome := Except.ok [] }
      { photos := [], faces := [] } "E1" 24).2.2 none 24 rfl,
   (C8_matches_sorted_and_bounded none
      { ensureCollectionOutcome := Except.ok (), searchOutcome := Except.ok [] }
      { photos := [], faces := [] } "E1" 24).2.1⟩

/-! ### Association-list map lemmas (for the two JavaScript `Map` folds) -/

lemma mapGet_cons {α : Type} (kv : String × α) (m : List (String × α)) (k : String) :
    mapGet (kv :: m) k = if kv.fst = k then some kv.snd else mapGet m k := by
  by_cases h : kv.fst = k
  · simp [mapGet, List.find?_cons_of_pos, h]
  · simp [mapGet, List.find?_cons_of_neg, h]

lemma mapGet_mapSet_self {α : Type} (k : String) (v : α) (m : List (String × α)) :
    mapGet (mapSet k v m) k = some v := by
  induction m with
  | nil => simp [mapSet, mapGet_cons]
  | cons kv rest ih =>
    by_cases h : kv.fst = k
    · simp [mapSet, h, mapGet_cons]
    · simp [mapSet, h, mapGet_cons, ih]

lemma mapGet_mapSet_ne {α : Type} (k k2 : String) (v : α) (m : List (String × α))
    (h : k ≠ k2) : mapGet (mapSet k v m) k2 = mapGet m k2 := by
  induction m with
  | nil => simp [mapSet, mapGet_cons, h]
  | cons kv rest ih =>
    by_cases h2 : kv.fst = k
    · simp [mapSet, h2, mapGet_cons, h]
    · simp [mapSet, h2, mapGet_cons, ih]

lemma mem_mapSet_sub {α : Type} (x : String × α) (k : String) (v : α)
    (m : List (String × α)) (h : x ∈ mapSet k v m) : x = (k, v) ∨ x ∈ m := by
  induction m with
  | nil => simpa [mapSet] using h
  | cons kv rest ih =>
    by_cases h2 : kv.fst = k
    · rw [mapSet, if_pos h2] at h
      rcases List.mem_cons.mp h with h3 | h3
      · exact Or.inl h3
      · exact Or.inr (List.mem_cons_of_mem kv h3)
    · rw [mapSet, if_neg h2] at h
      rcases List.mem_cons.mp h with h3 | h3
      · exact Or.inr (h3 ▸ List.mem_cons_self kv rest)
      · rcases ih h3 with h4 | h4
        · exact Or.inl h4
        · exact Or.inr (List.mem_cons_of_mem kv h4)

lemma keys_mapSet {α : Type} (k : String) (v : α) (m : List (String × α)) :
    (mapSet k v m).map Prod.fst =
      if k ∈ m.map Prod.fst then m.map Prod.fst else m.map Prod.fst ++ [k] := by
  induction m with
  | nil => simp [mapSet]
  | cons kv rest ih =>
    by_cases h2 : kv.fst = k
    · simp [mapSet, h2]
    · have hne : ¬(k = kv.fst) := fun hh => h2 hh.symm
      by_cases hm : k ∈ rest.map Prod.fst
      · simp [mapSet, h2, ih, hm, hne]
      · simp [mapSet, h2, ih, hm, hne]

lemma nodup_keys_mapSet {α : Type} (k : String) (v : α) (m : List (String × α))
    (h : (m.map Prod.fst).Nodup) : ((mapSet k v m).map Prod.fst).Nodup := by
  rw [keys_mapSet]
  by_cases hm : k ∈ m.map Prod.fst
  · simpa [hm] using h
  · simp [hm, List.nodup_append, h]

lemma mapGet_eq_none_iff {α : Type} (m : List (String × α)) (k : String) :
    mapGet m k = none ↔ k ∉ m.map Prod.fst := by
  constructor
  · intro h hmem
    rcases List.mem_map.mp hmem with ⟨kv, hkv, hfst⟩
    rw [mapGet, Option.map_eq_none'] at h
    have := List.find?_eq_none.mp h kv hkv
    simp [hfst] at this
  · intro h
    rw [mapGet, Option.map_eq_none']
    apply List.find?_eq_none.mpr
    intro kv hkv
    simp only [decide_eq_true_eq]
    intro hfst
    exact h (List.mem_map.mpr ⟨kv, hkv, hfst⟩)

lemma mapGet_isSome_of_mem_keys {α : Type} (m : List (String × α)) (k : String)
    (h : k ∈ m.map Prod.fst) : ∃ v, mapGet m k = some v := by
  cases hv : mapGet m k with
  | none => exact absurd h ((mapGet_eq_none_iff m k).mp hv)
  | some v => exact ⟨v, rfl⟩

lemma mem_of_mapGet_eq_some {α : Type} (m : List (String × α)) (k : String) (v : α)
    (h : mapGet m k = some v) : (k, v) ∈ m := by
  rw [mapGet] at h
  rcases Option.map_eq_some'.mp h with ⟨kv, hfind, hsnd⟩
  have hmem := List.mem_of_find?_eq_some hfind
  have hfst : kv.fst = k := by simpa using List.find?_some hfind
  cases kv with
  | mk a b =>
    simp only at hfst hsnd
    rw [← hfst, ← hsnd]
    exact hmem

lemma mapGet_of_mem_nodup {α : Type} (m : List (String × α)) (k : String) (v : α)
    (hnd : (m.map Prod.fst).Nodup) (h : (k, v) ∈ m) : mapGet m k = some v := by
  induction m with
  | nil => cases h
  | cons kv rest ih =>
    rw [List.map_cons, List.nodup_cons] at hnd
    rcases List.mem_cons.mp h with h1 | h1
    · rw [← h1, mapGet_cons, if_pos rfl]
    · have hk : kv.fst ≠ k := by
        intro he
        exact hnd.1 (he ▸ List.mem_map.mpr ⟨(k, v), h1, rfl⟩)
      rw [mapGet_cons, if_neg hk]
      exact ih hnd.2 h1

/-! ### Invariants of the `similarityByFaceId` fold -/

/-- The step function of the `similarityByFaceId` fold, named for the
lemmas below. -/
def simStep (m : List (String × Rat)) (mt : RawFaceMatch) : List (String × Rat) :=
  match jsTruthyString mt.faceId, mt.similarity with
  | some faceId, some similarity =>
    if (mapGet m faceId).getD 0 < similarity then mapSet faceId similarity m else m
  | _, _ => m

lemma similarityByFaceId_eq_foldl (raw : List RawFaceMatch) :
    similarityByFaceId raw = raw.foldl simStep [] := rfl

lemma simStep_cases (m : List (String × Rat)) (mt : RawFaceMatch) :
    simStep m mt = m ∨
    ∃ fid s, jsTruthyString mt.faceId = some fid ∧ mt.similarity = some s ∧
      (mapGet m fid).getD 0 < s ∧ simStep m mt = mapSet fid s m := by
  cases hjt : jsTruthyString mt.faceId with
  | none => left; simp [simStep, hjt]
  | some fid =>
    cases hsim : mt.similarity with
    | none => left; simp [simStep, hjt, hsim]
    | some s =>
      by_cases hlt : (mapGet m fid).getD 0 < s
      · right; exact ⟨fid, s, rfl, rfl, hlt, by simp [simStep, hjt, hsim, hlt]⟩
      · left; simp [simStep, hjt, hsim, hlt]

lemma simStep_nodup (m : List (String × Rat)) (mt : RawFaceMatch)
    (h : (m.map Prod.fst).Nodup) : ((simStep m mt).map Prod.fst).Nodup := by
  rcases simStep_cases m mt with he | ⟨fid, s, -, -, -, he⟩
  · rw [he]; exact h
  · rw [he]; exact nodup_keys_mapSet fid s m h

lemma simStep_mem (x : String × Rat) (m : List (String × Rat)) (mt : RawFaceMatch)
    (h : x ∈ simStep m mt) :
    x ∈ m ∨ (jsTruthyString mt.faceId = some x.1 ∧ mt.similarity = some x.2) := by
  rcases simStep_cases m mt with he | ⟨fid, s, hjt, hsim, -, he⟩
  · rw [he] at h; exact Or.inl h
  · rw [he] at h
    rcases mem_mapSet_sub x fid s m h with h2 | h2
    · right
      rw [h2]
      exact ⟨hjt, hsim⟩
    · exact Or.inl h2

lemma simStep_mono (m : List (String × Rat)) (mt : RawFaceMatch) (k : String) :
    (mapGet m k).getD 0 ≤ (mapGet (simStep m mt) k).getD 0 := by
  rcases simStep_cases m mt with he | ⟨fid, s, -, -, hlt, he⟩
  · rw [he]
  · rw [he]
    by_cases hk : fid = k
    · rw [← hk, mapGet_mapSet_self]
      exact le_of_lt (lt_of_le_of_lt (by rw [hk]) hlt)
    · rw [mapGet_mapSet_ne fid k s m hk]

lemma simStep_bound (m : List (String × Rat)) (mt : RawFaceMatch)
    (fid : String) (s : Rat)
    (hjt : jsTruthyString mt.faceId = some fid) (hsim : mt.similarity = some s) :
    s ≤ (mapGet (simStep m mt) fid).getD 0 := by
  rw [simStep, hjt, hsim]
  by_cases hlt : (mapGet m fid).getD 0 < s
  · simp only [hlt, if_true, mapGet_mapSet_self, Option.getD_some]
    exact le_refl s
  · simp only [hlt, if_false]
    exact le_of_not_lt hlt

lemma simStep_pos (m : List (String × Rat)) (mt : RawFaceMatch)
    (h : ∀ x ∈ m, 0 < x.2) : ∀ x ∈ simStep m mt, 0 < x.2 := by
  rcases simStep_cases m mt with he | ⟨fid, s, -, -, hlt, he⟩
  · rw [he]; exact h
  · rw [he]
    intro x hx
    rcases mem_mapSet_sub x fid s m hx with h2 | h2
    · rw [h2]
      have hprev : 0 ≤ (mapGet m fid).getD 0 := by
        cases hg : mapGet m fid with
        | none => simp
        | some v =>
          simp only [Option.getD_some]
          exact le_of_lt (h (fid, v) (mem_of_mapGet_eq_some m fid v hg))
      exact lt_of_le_of_lt hprev hlt
    · exact h x h2

lemma simFold_nodup (raw : List RawFaceMatch) :
    ∀ m : List (String × Rat), (m.map Prod.fst).Nodup →
      ((raw.foldl simStep m).map Prod.fst).Nodup := by
  induction raw with
  | nil => intro m h; exact h
  | cons mt rest ih =>
    intro m h
    rw [List.foldl_cons]
    exact ih (simStep m mt) (simStep_nodup m mt h)

lemma simFold_mem (raw : List RawFaceMatch) :
    ∀ (m : List (String × Rat)) (x : String × Rat), x ∈ raw.foldl simStep m →
      x ∈ m ∨ ∃ mt ∈ raw, jsTruthyString mt.faceId = some x.1 ∧ mt.similarity = some x.2 := by
  induction raw with
  | nil => intro m x h; exact Or.inl h
  | cons mt rest ih =>
    intro m x h
    rw [List.foldl_cons] at h
    rcases ih (simStep m mt) x h with h2 | ⟨mt2, hmem, h3⟩
    · rcases simStep_mem x m mt h2 with h3 | h3
      · exact Or.inl h3
      · exact Or.inr ⟨mt, List.mem_cons_self mt rest, h3⟩
    · exact Or.inr ⟨mt2, List.mem_cons_of_mem mt hmem, h3⟩

lemma simFold_mono (raw : List RawFaceMatch) :
    ∀ (m : List (String × Rat)) (k : String),
      (mapGet m k).getD 0 ≤ (mapGet (raw.foldl simStep m) k).getD 0 := by
  induction raw with
  | nil => intro m k; exact le_refl _
  | cons mt rest ih =>
    intro m k
    rw [List.foldl_cons]
    exact le_trans (simStep_mono m mt k) (ih (simStep m mt) k)

lemma simFold_bound (raw : List RawFaceMatch) :
    ∀ (m : List (String × Rat)) (mt : RawFaceMatch), mt ∈ raw →
      ∀ (fid : String) (s : Rat),
        jsTruthyString mt.faceId = some fid → mt.similarity = some s →
        s ≤ (mapGet (raw.foldl simStep m) fid).getD 0 := by
  induction raw with
  | nil => intro m mt h; cases h
  | cons mt0 rest ih =>
    intro m mt hmem fid s hjt hsim
    rw [List.foldl_cons]
    rcases List.mem_cons.mp hmem with h1 | h1
    · exact le_trans (simStep_bound m mt0 fid s (h1 ▸ hjt) (h1 ▸ hsim))
        (simFold_mono rest (simStep m mt0) fid)
    · exact ih (simStep m mt0) mt h1 fid s hjt hsim

lemma simFold_pos (raw : List RawFaceMatch) :
    ∀ m : List (String × Rat), (∀ x ∈ m, 0 < x.2) →
      ∀ x ∈ raw.foldl simStep m, 0 < x.2 := by
  induction raw with
  | nil => intro m h; exact h
  | cons mt rest ih =>
    intro m h
    rw [List.foldl_cons]
    exact ih (simStep m mt) (simStep_pos m mt h)

/-! ### Invariants of the `bestByPhotoId` fold -/

/-- The step function of the `bestByPhotoId` fold. -/
def bestStep (simByFace : List (String × Rat))
    (m : List (String × (Rat × Photo))) (fp : FaceEmbedding × Photo) :
    List (String × (Rat × Photo)) :=
  match mapGet m fp.1.photoId with
  | none =>
    mapSet fp.1.photoId ((mapGet simByFace fp.1.externalId).getD 0, fp.2) m
  | some previous =>
    if previous.1 < (mapGet simByFace fp.1.externalId).getD 0 then
      mapSet fp.1.photoId ((mapGet simByFace fp.1.externalId).getD 0, fp.2) m
    else m

lemma bestByPhotoId_eq_foldl (simByFace : List (String × Rat))
    (embeddings : List (FaceEmbedding × Photo)) :
    bestByPhotoId simByFace embeddings = embeddings.foldl (bestStep simByFace) [] := rfl

lemma bestStep_cases (sim : List (String × Rat))
    (m : List (String × (Rat × Photo))) (fp : FaceEmbedding × Photo) :
    (bestStep sim m fp = m ∧
      ∃ w, mapGet m fp.1.photoId = some w ∧ (mapGet sim fp.1.externalId).getD 0 ≤ w.1) ∨
    (bestStep sim m fp
        = mapSet fp.1.photoId ((mapGet sim fp.1.externalId).getD 0, fp.2) m ∧
      ∀ w, mapGet m fp.1.photoId = some w → w.1 < (mapGet sim fp.1.externalId).getD 0) := by
  cases hg : mapGet m fp.1.photoId with
  | none =>
    right
    constructor
    · simp [bestStep, hg]
    · intro w hw; exact Option.noConfusion hw
  | some previous =>
    by_cases hlt : previous.1 < (mapGet sim fp.1.externalId).getD 0
    · right
      constructor
      · simp [bestStep, hg, hlt]
      · intro w hw
        cases hw
        exact hlt
    · left
      constructor
      · simp [bestStep, hg, hlt]
      · exact ⟨previous, rfl, le_of_not_lt hlt⟩

lemma bestStep_nodup (sim : List (String × Rat))
    (m : List (String × (Rat × Photo))) (fp : FaceEmbedding × Photo)
    (h : (m.map Prod.fst).Nodup) : ((bestStep sim m fp).map Prod.fst).Nodup := by
  rcases bestStep_cases sim m fp with ⟨he, -⟩ | ⟨he, -⟩
  · rw [he]; exact h
  · rw [he]; exact nodup_keys_mapSet _ _ m h

lemma bestStep_mem (sim : List (String × Rat)) (x : String × (Rat × Photo))
    (m : List (String × (Rat × Photo))) (fp : FaceEmbedding × Photo)
    (h : x ∈ bestStep sim m fp) :
    x ∈ m ∨ x = (fp.1.photoId, ((mapGet sim fp.1.externalId).getD 0, fp.2)) := by
  rcases bestStep_cases sim m fp with ⟨he, -⟩ | ⟨he, -⟩
  · rw [he] at h; exact Or.inl h
  · rw [he] at h
    rcases mem_mapSet_sub x _ _ m h with h2 | h2
    · exact Or.inr h2
    · exact Or.inl h2

lemma bestStep_mono (sim : List (String × Rat))
    (m : List (String × (Rat × Photo))) (fp : FaceEmbedding × Photo)
    (k : String) (w : Rat × Photo) (h : mapGet m k = some w) :
    ∃ w2, mapGet (bestStep sim m fp) k = some w2 ∧ w.1 ≤ w2.1 := by
  rcases bestStep_cases sim m fp with ⟨he, -⟩ | ⟨he, hlt⟩
  · rw [he]; exact ⟨w, h, le_refl _⟩
  · rw [he]
    by_cases hk : fp.1.photoId = k
    · rw [← hk, mapGet_mapSet_self]
      refine ⟨_, rfl, ?_⟩
      rw [← hk] at h
      exact le_of_lt (hlt w h)
    · rw [mapGet_mapSet_ne _ k _ m hk]
      exact ⟨w, h, le_refl _⟩

lemma bestStep_complete (sim : List (String × Rat))
    (m : List (String × (Rat × Photo))) (fp : FaceEmbedding × Photo) :
    ∃ w, mapGet (bestStep sim m fp) fp.1.photoId = some w ∧
      (mapGet sim fp.1.externalId).getD 0 ≤ w.1 := by
  rcases bestStep_cases sim m fp with ⟨he, w, hw, hle⟩ | ⟨he, -⟩
  · rw [he]; exact ⟨w, hw, hle⟩
  · rw [he, mapGet_mapSet_self]
    exact ⟨_, rfl, le_refl _⟩

lemma bestFold_nodup (sim : List (String × Rat))
    (embs : List (FaceEmbedding × Photo)) :
    ∀ m : List (String × (Rat × Photo)), (m.map Prod.fst).Nodup →
      ((embs.foldl (bestStep sim) m).map Prod.fst).Nodup := by
  induction embs with
  | nil => intro m h; exact h
  | cons fp rest ih =>
    intro m h
    rw [List.foldl_cons]
    exact ih (bestStep sim m fp) (bestStep_nodup sim m fp h)

lemma bestFold_mem (sim : List (String × Rat))
    (embs : List (FaceEmbedding × Photo)) :
    ∀ (m : List (String × (Rat × Photo))) (x : String × (Rat × Photo)),
      x ∈ embs.foldl (bestStep sim) m →
      x ∈ m ∨ ∃ fp ∈ embs,
        x = (fp.1.photoId, ((mapGet sim fp.1.externalId).getD 0, fp.2)) := by
  induction embs with
  | nil => intro m x h; exact Or.inl h
  | cons fp rest ih =>
    intro m x h
    rw [List.foldl_cons] at h
    rcases ih (bestStep sim m fp) x h with h2 | ⟨fp2, hmem, h3⟩
    · rcases bestStep_mem sim x m fp h2 with h3 | h3
      · exact Or.inl h3
      · exact Or.inr ⟨fp, List.mem_cons_self fp rest, h3⟩
    · exact Or.inr ⟨fp2, List.mem_cons_of_mem fp hmem, h3⟩

lemma bestFold_mono (sim : List (String × Rat))
    (embs : List (FaceEmbedding × Photo)) :
    ∀ (m : List (String × (Rat × Photo))) (k : String) (w : Rat × Photo),
      mapGet m k = some w →
      ∃ w2, mapGet (embs.foldl (bestStep sim) m) k = some w2 ∧ w.1 ≤ w2.1 := by
  induction embs with
  | nil => intro m k w h; exact ⟨w, h, le_refl _⟩
  | cons fp rest ih =>
    intro m k w h
    rw [List.foldl_cons]
    rcases bestStep_mono sim m fp k w h with ⟨w2, hw2, hle⟩
    rcases ih (bestStep sim m fp) k w2 hw2 with ⟨w3, hw3, hle2⟩
    exact ⟨w3, hw3, le_trans hle hle2⟩

lemma bestFold_complete (sim : List (String × Rat))
    (embs : List (FaceEmbedding × Photo)) :
    ∀ (m : List (String × (Rat × Photo))) (fp : FaceEmbedding × Photo), fp ∈ embs →
      ∃ w, mapGet (embs.foldl (bestStep sim) m) fp.1.photoId = some w ∧
        (mapGet sim fp.1.externalId).getD 0 ≤ w.1 := by
  induction embs with
  | nil => intro m fp h; cases h
  | cons fp0 rest ih =>
    intro m fp hmem
    rw [List.foldl_cons]
    rcases List.mem_cons.mp hmem with h1 | h1
    · subst h1
      rcases bestStep_complete sim m fp with ⟨w, hw, hle⟩
      rcases bestFold_mono sim rest (bestStep sim m fp) fp.1.photoId w hw with ⟨w2, hw2, hle2⟩
      exact ⟨w2, hw2, le_trans hle hle2⟩
    · exact ih (bestStep sim m fp0) fp h1

/-! ### Eligible-embedding lemmas and the C4 statement vocabulary -/

lemma mem_findEligibleEmbeddings (gdb : GalleryDb) (eventId : String)
    (faceIds : List String) (f : FaceEmbedding) (ph : Photo) :
    (f, ph) ∈ findEligibleEmbeddings gdb eventId faceIds ↔
      f ∈ gdb.faces ∧ f.provider = FACE_PROVIDER ∧ f.externalId ∈ faceIds ∧
      gdb.photos.find? (fun p => p.id = f.photoId) = some ph ∧
      ph.eventId = eventId ∧ ph.status = PhotoStatus.PUBLISHED ∧
      ph.isUploaded = true := by
  constructor
  · intro h
    rcases List.mem_filterMap.mp h with ⟨f0, hf0, hsome⟩
    rcases Option.ite_none_right_eq_some.mp hsome with ⟨hc, hsome2⟩
    rcases Option.bind_eq_some.mp hsome2 with ⟨ph2, hfind, hsome3⟩
    rcases Option.ite_none_right_eq_some.mp hsome3 with ⟨he, heq⟩
    have hpair := Option.some.inj heq
    have hf : f0 = f := congrArg Prod.fst hpair
    have hp : ph2 = ph := congrArg Prod.snd hpair
    subst hf
    subst hp
    exact ⟨hf0, hc.1, hc.2, hfind, he.1, he.2.1, he.2.2⟩
  · rintro ⟨hf, hprov, hext, hfind, he1, he2, he3⟩
    apply List.mem_filterMap.mpr
    refine ⟨f, hf, ?_⟩
    rw [if_pos ⟨hprov, hext⟩, hfind, Option.some_bind, if_pos ⟨he1, he2, he3⟩]

lemma photo_of_find? (photos : List Photo) (f : FaceEmbedding) (ph : Photo)
    (h : photos.find? (fun p => p.id = f.photoId) = some ph) :
    ph ∈ photos ∧ ph.id = f.photoId :=
  ⟨List.mem_of_find?_eq_some h, by simpa using List.find?_some h⟩

lemma find?_photo_of_nodup (photos : List Photo) (ph : Photo)
    (hnd : (photos.map Photo.id).Nodup) (h : ph ∈ photos) :
    photos.find? (fun p => p.id = ph.id) = some ph := by
  induction photos with
  | nil => cases h
  | cons p rest ih =>
    rw [List.map_cons, List.nodup_cons] at hnd
    rcases List.mem_cons.mp h with h1 | h1
    · rw [h1]
      exact List.find?_cons_of_pos _ (by simp)
    · have hp : ¬(p.id = ph.id) := by
        intro he
        apply hnd.1
        rw [he]
        exact List.mem_map.mpr ⟨ph, h1, rfl⟩
      rw [List.find?_cons_of_neg]
      · exact ih hnd.2 h1
      · simp [hp]

/-- A similarity `s` was reported by the provider for face handle `h` in
the raw search response. -/
def reported (raw : List RawFaceMatch) (h : String) (s : Rat) : Prop :=
  ∃ mt ∈ raw, jsTruthyString mt.faceId = some h ∧ mt.similarity = some s

/-- Face handle `h` resolves (through a `FACE_PROVIDER` `FaceEmbedding`
row) to the photo with id `pid`. -/
def resolvesTo (gdb : GalleryDb) (h pid : String) : Prop :=
  ∃ f ∈ gdb.faces, f.provider = FACE_PROVIDER ∧ f.externalId = h ∧ f.photoId = pid

/-- C4: in every selfie-search result (photo-id-unique database), each
photo appears at most once; only published photos of the requested event
appear; and each entry's similarity is exactly the maximum similarity the
provider reported across all face handles resolving to that photo: it is
attained by some resolving handle, and no report for a resolving handle
exceeds it — even under duplicate or cross-event face handles. -/
theorem C4_selfie_matches_dedup_max_filtered (c : FaceSearchConfig)
    (provider : SearchProviderBehavior) (gdb : GalleryDb)
    (eventId : String) (limit : Nat) (raw : List RawFaceMatch)
    (hsearch : provider.searchOutcome = Except.ok raw)
    (hnodup : (gdb.photos.map Photo.id).Nodup) :
    ((findSelfieMatches (some c) provider gdb eventId limit).matchList.map
      (fun m => m.photo.id)).Nodup ∧
    (∀ m ∈ (findSelfieMatches (some c) provider gdb eventId limit).matchList,
      m.photo.eventId = eventId ∧ m.photo.status = PhotoStatus.PUBLISHED) ∧
    (∀ m ∈ (findSelfieMatches (some c) provider gdb eventId limit).matchList,
      (∃ h2, resolvesTo gdb h2 m.photo.id ∧ reported raw h2 m.similarity) ∧
      (∀ h2 s, resolvesTo gdb h2 m.photo.id → reported raw h2 s →
        s ≤ m.similarity)) := by
  rcases findSelfieMatches_matchList_shape (some c) provider gdb eventId limit with
    hnil | ⟨raw2, hs2, hshape⟩
  · rw [hnil]
    exact ⟨List.nodup_nil, by simp, by simp⟩
  · rw [hsearch] at hs2
    have hraw : raw2 = raw := (Except.ok.inj hs2).symm
    subst hraw
    rw [hshape]
    -- facts about the deduplication map
    have hsimNodup : ((similarityByFaceId raw2).map Prod.fst).Nodup := by
      rw [similarityByFaceId_eq_foldl]
      exact simFold_nodup raw2 [] (by simp)
    have hsimMem : ∀ x ∈ similarityByFaceId raw2, reported raw2 x.1 x.2 := by
      intro x hx
      rw [similarityByFaceId_eq_foldl] at hx
      rcases simFold_mem raw2 [] x hx with h | ⟨mt, hmt, hjt, hsim⟩
      · cases h
      · exact ⟨mt, hmt, hjt, hsim⟩
    have hsimPos : ∀ x ∈ similarityByFaceId raw2, 0 < x.2 := by
      intro x hx
      rw [similarityByFaceId_eq_foldl] at hx
      exact simFold_pos raw2 [] (by intro y hy; cases hy) x hx
    have hsimBound : ∀ h2 s, reported raw2 h2 s →
        s ≤ (mapGet (similarityByFaceId raw2) h2).getD 0 := by
      rintro h2 s ⟨mt, hmt, hjt, hsim⟩
      rw [similarityByFaceId_eq_foldl]
      exact simFold_bound raw2 [] mt hmt h2 s hjt hsim
    -- facts about the per-photo aggregation map
    have hbmNodup : ((bestByPhotoId (similarityByFaceId raw2)
        (findEligibleEmbeddings gdb eventId
          ((similarityByFaceId raw2).map Prod.fst))).map Prod.fst).Nodup := by
      rw [bestByPhotoId_eq_foldl]
      exact bestFold_nodup _ _ [] (by simp)
    have hbmMem : ∀ x ∈ bestByPhotoId (similarityByFaceId raw2)
        (findEligibleEmbeddings gdb eventId
          ((similarityByFaceId raw2).map Prod.fst)),
        ∃ fp ∈ findEligibleEmbeddings gdb eventId
          ((similarityByFaceId raw2).map Prod.fst),
          x = (fp.1.photoId,
            ((mapGet (similarityByFaceId raw2) fp.1.externalId).getD 0, fp.2)) := by
      intro x hx
      rw [bestByPhotoId_eq_foldl] at hx
      rcases bestFold_mem _ _ [] x hx with h | h
      · cases h
      · exact h
    have hbmComplete : ∀ fp ∈ findEligibleEmbeddings gdb eventId
        ((similarityByFaceId raw2).map Prod.fst),
        ∃ w, mapGet (bestByPhotoId (similarityByFaceId raw2)
            (findEligibleEmbeddings gdb eventId
              ((similarityByFaceId raw2).map Prod.fst))) fp.1.photoId = some w ∧
          (mapGet (similarityByFaceId raw2) fp.1.externalId).getD 0 ≤ w.1 := by
      intro fp hfp
      rw [bestByPhotoId_eq_foldl]
      exact bestFold_complete _ _ [] fp hfp
    -- from a final match entry back to its aggregation-map pair
    have hpair : ∀ m ∈ ((((bestByPhotoId (similarityByFaceId raw2)
          (findEligibleEmbeddings gdb eventId
            ((similarityByFaceId raw2).map Prod.fst))).map
          Prod.snd).mergeSort (fun a b => decide (b.1 ≤ a.1))).take limit).map
        (fun m => ({ similarity := m.1, photo := serializePhoto m.2 } : SelfieMatchItem)),
        ∃ pr, (pr.2.id, pr) ∈ bestByPhotoId (similarityByFaceId raw2)
            (findEligibleEmbeddings gdb eventId
              ((similarityByFaceId raw2).map Prod.fst)) ∧
          m = { similarity := pr.1, photo := serializePhoto pr.2 } ∧
          ∃ fp ∈ findEligibleEmbeddings gdb eventId
            ((similarityByFaceId raw2).map Prod.fst),
            fp.1.photoId = pr.2.id ∧ fp.2 = pr.2 ∧
            pr.1 = (mapGet (similarityByFaceId raw2) fp.1.externalId).getD 0 := by
      intro m hm
      rcases List.mem_map.mp hm with ⟨pr, hpr, hm2⟩
      have hpr2 : pr ∈ (bestByPhotoId (similarityByFaceId raw2)
          (findEligibleEmbeddings gdb eventId
            ((similarityByFaceId raw2).map Prod.fst))).map Prod.snd :=
        (List.mergeSort_perm _ _).subset (List.take_subset limit _ hpr)
      rcases List.mem_map.mp hpr2 with ⟨kv, hkv, hkv2⟩
      rcases hbmMem kv hkv with ⟨fp, hfp, hkveq⟩
      have hid : fp.2.id = fp.1.photoId := by
        rcases (mem_findEligibleEmbeddings gdb eventId _ fp.1 fp.2).mp
          (by simpa using hfp) with ⟨-, -, -, hfind, -⟩
        exact (photo_of_find? gdb.photos fp.1 fp.2 hfind).2
      have hprs : pr = ((mapGet (similarityByFaceId raw2) fp.1.externalId).getD 0, fp.2) := by
        rw [← hkv2, hkveq]
      refine ⟨pr, ?_, hm2.symm, fp, hfp, ?_, ?_, ?_⟩
      · have : (pr.2.id, pr) = kv := by
          rw [hkveq, hprs]
          simp [hid]
        rw [this]
        exact hkv
      · rw [hprs]
        exact hid.symm
      · rw [hprs]
      · rw [hprs]
    refine ⟨?_, ?_, ?_⟩
    · -- photo ids are pairwise distinct
      rw [List.map_map]
      have hfun : ((fun m : SelfieMatchItem => m.photo.id) ∘
          (fun m : Rat × Photo =>
            ({ similarity := m.1, photo := serializePhoto m.2 } : SelfieMatchItem)))
          = fun pr : Rat × Photo => pr.2.id := rfl
      rw [hfun]
      have hvals : ((bestByPhotoId (similarityByFaceId raw2)
          (findEligibleEmbeddings gdb eventId
            ((similarityByFaceId raw2).map Prod.fst))).map Prod.snd).map
            (fun pr : Rat × Photo => pr.2.id)
          = (bestByPhotoId (similarityByFaceId raw2)
            (findEligibleEmbeddings gdb eventId
              ((similarityByFaceId raw2).map Prod.fst))).map Prod.fst := by
        rw [List.map_map]
        refine List.map_congr_left ?_
        intro kv hkv
        rcases hbmMem kv hkv with ⟨fp, hfp, hkveq⟩
        have hid : fp.2.id = fp.1.photoId := by
          rcases (mem_findEligibleEmbeddings gdb eventId _ fp.1 fp.2).mp
            (by simpa using hfp) with ⟨-, -, -, hfind, -⟩
          exact (photo_of_find? gdb.photos fp.1 fp.2 hfind).2
        rw [hkveq]
        simpa using hid
      have hsorted : (((bestByPhotoId (similarityByFaceId raw2)
          (findEligibleEmbeddings gdb eventId
            ((similarityByFaceId raw2).map Prod.fst))).map
          Prod.snd).mergeSort (fun a b => decide (b.1 ≤ a.1))).map
            (fun pr : Rat × Photo => pr.2.id) |>.Nodup := by
        apply List.Perm.nodup ((List.mergeSort_perm _ _).map _).symm
        rw [hvals]
        exact hbmNodup
      exact hsorted.sublist ((List.take_sublist limit _).map _)
    · -- only published photos of the requested event
      intro m hm
      rcases hpair m hm with ⟨pr, -, hmeq, fp, hfp, -, hfp2, -⟩
      rcases (mem_findEligibleEmbeddings gdb eventId _ fp.1 fp.2).mp
        (by simpa using hfp) with ⟨-, -, -, -, he1, he2, -⟩
      rw [hmeq]
      exact ⟨by simp [serializePhoto, ← hfp2, he1], by simp [serializePhoto, ← hfp2, he2]⟩
    · -- max property
      intro m hm
      rcases hpair m hm with ⟨pr, hprbm, hmeq, fp, hfp, hfpid, hfp2, hprval⟩
      rcases (mem_findEligibleEmbeddings gdb eventId _ fp.1 fp.2).mp
        (by simpa using hfp) with ⟨hfmem, hfprov, hfkeys, hffind, -, -, -⟩
      have hmid : m.photo.id = pr.2.id := by rw [hmeq]; simp [serializePhoto]
      have hmsim : m.similarity = pr.1 := by rw [hmeq]
      constructor
      · -- attained by some resolving handle
        rcases mapGet_isSome_of_mem_keys _ _ hfkeys with ⟨v, hv⟩
        refine ⟨fp.1.externalId, ⟨fp.1, hfmem, hfprov, rfl, ?_⟩, ?_⟩
        · rw [hmid, ← hfpid]
        · have : m.similarity = v := by rw [hmsim, hprval, hv]; rfl
          rw [this]
          exact hsimMem (fp.1.externalId, v) (mem_of_mapGet_eq_some _ _ _ hv)
      · -- no resolving handle was reported higher
        rintro h2 s ⟨f, hfmem2, hfprov2, hfext2, hfpid2⟩ hrep
        rw [hmid] at hfpid2
        by_cases hk : h2 ∈ (similarityByFaceId raw2).map Prod.fst
        · have hphmem : fp.2 ∈ gdb.photos := (photo_of_find? gdb.photos fp.1 fp.2 hffind).1
          have hembs : (f, fp.2) ∈ findEligibleEmbeddings gdb eventId
              ((similarityByFaceId raw2).map Prod.fst) := by
            apply (mem_findEligibleEmbeddings gdb eventId _ f fp.2).mpr
            refine ⟨hfmem2, hfprov2, by rw [hfext2]; exact hk, ?_, ?_, ?_, ?_⟩
            · rw [hfpid2, ← hfp2]
              exact find?_photo_of_nodup gdb.photos fp.2 hnodup hphmem
            · rcases (mem_findEligibleEmbeddings gdb eventId _ fp.1 fp.2).mp
                (by simpa using hfp) with ⟨-, -, -, -, he1, -, -⟩
              exact he1
            · rcases (mem_findEligibleEmbeddings gdb eventId _ fp.1 fp.2).mp
                (by simpa using hfp) with ⟨-, -, -, -, -, he2, -⟩
              exact he2
            · rcases (mem_findEligibleEmbeddings gdb eventId _ fp.1 fp.2).mp
                (by simpa using hfp) with ⟨-, -, -, -, -, -, he3⟩
              exact he3
          rcases hbmComplete (f, fp.2) hembs with ⟨w, hw, hle⟩
          have hbmk : mapGet (bestByPhotoId (similarityByFaceId raw2)
              (findEligibleEmbeddings gdb eventId
                ((similarityByFaceId raw2).map Prod.fst))) pr.2.id = some pr :=
            mapGet_of_mem_nodup _ _ _ hbmNodup hprbm
          have hweq : w = pr := by
            have h3 : f.photoId = pr.2.id := by rw [hfpid2, ← hfp2]
            rw [h3] at hw
            rw [hbmk] at hw
            exact (Option.some.inj hw).symm
          have hs0 : s ≤ (mapGet (similarityByFaceId raw2) h2).getD 0 :=
            hsimBound h2 s hrep
          rw [hmsim]
          calc s ≤ (mapGet (similarityByFaceId raw2) h2).getD 0 := hs0
            _ ≤ w.1 := by rw [← hfext2] at hs0 ⊢; simpa [hfext2] using hle
            _ = pr.1 := by rw [hweq]
        · have hnone : mapGet (similarityByFaceId raw2) h2 = none :=
            (mapGet_eq_none_iff _ _).mpr hk
          have hs0 : s ≤ 0 := by
            have := hsimBound h2 s hrep
            rwa [hnone] at this
          have hpos : 0 < pr.1 := by
            rcases mapGet_isSome_of_mem_keys _ _ hfkeys with ⟨v, hv⟩
            have : pr.1 = v := by rw [hprval, hv]; rfl
            rw [this]
            exact hsimPos (fp.1.externalId, v) (mem_of_mapGet_eq_some _ _ _ hv)
          rw [hmsim]
          exact le_of_lt (lt_of_le_of_lt hs0 hpos)

/-- Fixture for the C4 witness, mirroring the spec scenario: photo `P1` in
event `E1` with one FaceRecord `F1`; the provider reports `(F1, 91.2)` and
a duplicate `(F1, 87)`. -/
def gdbC4witness : GalleryDb :=
  { photos := [{ id := "P1", eventId := "E1", storageKey := "k1",
                 status := PhotoStatus.PUBLISHED, isUploaded := true }]
    faces := [{ photoId := "P1", provider := FACE_PROVIDER,
                externalId := "F1", confidence := none }] }

/-- Raw provider response of the C4 witness scenario. -/
def rawC4witness : List RawFaceMatch :=
  [{ faceId := some "F1", similarity := some (91.2 : Rat) },
   { faceId := some "F1", similarity := some (87 : Rat) }]

/-- Witness for C4 at the duplicate-handle scenario. -/
theorem C4_selfie_matches_dedup_witness :
    ((findSelfieMatches
        (some { bucket := "b", collectionId := "c", region := "r" })
        { ensureCollectionOutcome := Except.ok ()
          searchOutcome := Except.ok rawC4witness }
        gdbC4witness "E1" 24).matchList.map (fun m => m.photo.id)).Nodup ∧
    (∀ m ∈ (findSelfieMatches
        (some { bucket := "b", collectionId := "c", region := "r" })
        { ensureCollectionOutcome := Except.ok ()
          searchOutcome := Except.ok rawC4witness }
        gdbC4witness "E1" 24).matchList,
      m.photo.eventId = "E1" ∧ m.photo.status = PhotoStatus.PUBLISHED) :=
  ⟨(C4_selfie_matches_dedup_max_filtered
      { bucket := "b", collectionId := "c", region := "r" }
      { ensureCollectionOutcome := Except.ok ()
        searchOutcome := Except.ok rawC4witness }
      gdbC4witness "E1" 24 rawC4witness rfl (by decide)).1,
   (C4_selfie_matches_dedup_max_filtered
      { bucket := "b", collectionId := "c", region := "r" }
      { ensureCollectionOutcome := Except.ok ()
        searchOutcome := Except.ok rawC4witness }
      gdbC4witness "E1" 24 rawC4witness rfl (by decide)).2.1⟩

end Snapflow
